import Mathlib

/-!
Verification of the emulator core (src/core/src) against its specification.

The Rust sources are shallowly embedded: machine integers (u8, u16) become
Nat with explicit truncation (% 256, % 65536) at the points where the Rust
types truncate or wrap; byte arrays and slices become functions Nat → Nat
(all accesses exercised by the theorems are in bounds); growable byte
vectors whose length matters (the cartridge RAM) become List Nat; fallible
operations (Rust panics) become Option. Field and function names follow the
source where Lean allows it.
-/

set_option maxRecDepth 40000
set_option maxHeartbeats 2000000

namespace GBEmu

/-- Truncation to 8 bits, the value of a Rust u8 cast or wrap. -/
def u8 (n : Nat) : Nat := n % 256

/-- Truncation to 16 bits, the value of a Rust u16 cast or wrap. -/
def u16 (n : Nat) : Nat := n % 65536

/-- Numeric value of a Bool, as the Rust cast (b as u8). -/
def b2n (b : Bool) : Nat := if b then 1 else 0

/-- Value of a byte reinterpreted as i8 (Rust: b as i8). -/
def sign8 (n : Nat) : Int := if n < 128 then (n : Int) else (n : Int) - 256

/-- Truncating cast of a signed value to u16 (Rust: x as u16 on an i32). -/
def int_as_u16 (i : Int) : Nat := (i % 65536).toNat

/-- Truncating cast of a signed value to u8 (Rust: x as u8 on an i16). -/
def int_as_u8 (i : Int) : Nat := (i % 256).toNat

/-- utils.rs pack_bits: fold the booleans, last entry becoming bit 0. -/
def pack_bits (bools : List Bool) : Nat :=
  bools.reverse.enum.foldl (fun acc p => acc ||| (b2n p.2 <<< p.1)) 0

/-- Test of (value & (1 << bit)) != 0, the byte_register field decode. -/
def bitSet (value i : Nat) : Bool := value &&& (1 <<< i) != 0

/-! ### Interrupt sources (cpu.rs lines 10-14): (bit mask, vector address) -/

def INT_VBLANK : Nat × Nat := (0x01, 0x0040)
def INT_STAT : Nat × Nat := (0x02, 0x0048)
def INT_TIMER : Nat × Nat := (0x04, 0x0050)
def INT_SERIAL : Nat × Nat := (0x08, 0x0058)
def INT_JOYPAD : Nat × Nat := (0x10, 0x0060)

/-! ### Joypad (joypad.rs) -/

/-- Button state, 1 = pressed (joypad.rs). -/
structure Joypad where
  a : Bool
  b : Bool
  up : Bool
  down : Bool
  left : Bool
  right : Bool
  start : Bool
  select : Bool
deriving DecidableEq

def Joypad.new : Joypad :=
  ⟨false, false, false, false, false, false, false, false⟩

/-- Joypad::get (joypad.rs lines 15-26). -/
def Joypad.get (j : Joypad) (joyp : Nat) : Nat :=
  let joyp := joyp &&& 0x20
  joyp |||
    (if joyp &&& 0x20 == 0 then
      (b2n !j.start) <<< 3 ||| (b2n !j.select) <<< 2 ||| (b2n !j.b) <<< 1 ||| (b2n !j.a)
    else if joyp &&& 0x10 == 0 then
      (b2n !j.down) <<< 3 ||| (b2n !j.up) <<< 2 ||| (b2n !j.left) <<< 1 ||| (b2n !j.right)
    else 0x0F)

/-! ### Timer (clock.rs) -/

structure Clock where
  sysclock : Nat
  prev_edge_bit : Bool
  tima : Nat
  tma : Nat
  tac : Nat
deriving DecidableEq

def Clock.new : Clock := ⟨0, false, 0, 0, 0⟩

def Clock.div (c : Clock) : Nat := u8 (c.sysclock >>> 8)

/-- Clock::r (clock.rs lines 18-26); addresses outside 0xFF04-0xFF07 panic. -/
def Clock.r (c : Clock) (addr : Nat) : Nat :=
  if addr = 0xFF04 then c.div
  else if addr = 0xFF05 then c.tima
  else if addr = 0xFF06 then c.tma
  else c.tac

/-- Clock::w (clock.rs lines 28-36). -/
def Clock.w (c : Clock) (addr val : Nat) : Clock :=
  if addr = 0xFF04 then { c with sysclock := 0 }
  else if addr = 0xFF05 then { c with tima := val }
  else if addr = 0xFF06 then { c with tma := val }
  else { c with tac := val }

/-- Selected divider mask of Clock::step (clock.rs lines 41-44): half the
divisor, i.e. bit 9, 3, 5, 7 of sysclock for TAC[1:0] = 0, 1, 2, 3. The
default arm is unreachable (tac &&& 3 < 4; the source panics). -/
def Clock.tima_bit (tac : Nat) : Nat :=
  match tac &&& 0x03 with
  | 0 => 1024 / 2
  | 1 => 16 / 2
  | 2 => 64 / 2
  | 3 => 256 / 2
  | _ => 0

/-- One iteration of the loop body of Clock::step (clock.rs lines 45-57):
advance sysclock, detect a falling edge of (enable AND selected bit),
update TIMA, return the raised interrupt bits. -/
def Clock.tick (c : Clock) : Clock × Nat :=
  let tima_enabled := c.tac &&& 0x04 != 0
  let tima_bit := Clock.tima_bit c.tac
  let sysclock := u16 (c.sysclock + 1)
  let current_edge_bit := tima_enabled && (sysclock &&& tima_bit != 0)
  if c.prev_edge_bit && !current_edge_bit then
    if c.tima < 0xFF then
      ({ c with sysclock := sysclock, prev_edge_bit := current_edge_bit,
                tima := u8 (c.tima + 1) }, 0)
    else
      ({ c with sysclock := sysclock, prev_edge_bit := current_edge_bit,
                tima := c.tma }, INT_TIMER.1)
  else
    ({ c with sysclock := sysclock, prev_edge_bit := current_edge_bit }, 0)

/-- Clock::step (clock.rs lines 38-59): run tick elapsed_ticks times,
accumulating the interrupt bits with OR. -/
def Clock.step : Clock → Nat → Clock × Nat
  | c, 0 => (c, 0)
  | c, n + 1 =>
    let p := c.tick
    let q := p.1.step n
    (q.1, p.2 ||| q.2)

/-- Number of loop iterations of Clock::step that raise the TIMER interrupt,
i.e. the number of TIMA overflows, over n ticks. -/
def Clock.overflowCount : Clock → Nat → Nat
  | _, 0 => 0
  | c, n + 1 =>
    let p := c.tick
    (if p.2 != 0 then 1 else 0) + p.1.overflowCount n

theorem Clock.step_add (c : Clock) (m n : Nat) :
    c.step (m + n) = (((c.step m).1.step n).1, (c.step m).2 ||| ((c.step m).1.step n).2) := by
  induction m generalizing c with
  | zero => simp [Clock.step]
  | succ m ih =>
    have h : m + 1 + n = (m + n) + 1 := by omega
    rw [h]
    show (let p := c.tick; let q := p.1.step (m + n); (q.1, p.2 ||| q.2)) = _
    simp only [Clock.step, ih]
    simp [Nat.or_assoc]

theorem Clock.step_chain {c c1 c2 : Clock} {m n a b : Nat}
    (h1 : c.step m = (c1, a)) (h2 : c1.step n = (c2, b)) :
    c.step (m + n) = (c2, a ||| b) := by
  rw [Clock.step_add, h1]
  simp [h2]

theorem Clock.overflowCount_add (c : Clock) (m n : Nat) :
    c.overflowCount (m + n) = c.overflowCount m + ((c.step m).1.overflowCount n) := by
  induction m generalizing c with
  | zero => simp [Clock.overflowCount, Clock.step]
  | succ m ih =>
    have h : m + 1 + n = (m + n) + 1 := by omega
    rw [h]
    show (let p := c.tick; (if p.2 != 0 then 1 else 0) + p.1.overflowCount (m + n)) = _
    simp only [Clock.overflowCount, Clock.step, ih]
    omega

theorem Clock.overflowCount_chain {c c1 : Clock} {m n a u v : Nat}
    (h1 : c.step m = (c1, a)) (h2 : c.overflowCount m = u) (h3 : c1.overflowCount n = v) :
    c.overflowCount (m + n) = u + v := by
  rw [Clock.overflowCount_add, h1, h2]
  simpa using h3

/-- Timer of the C2 scenario: the reset state with TAC set to 0x05 through a
register write. -/
def clockC2 : Clock := Clock.w Clock.new 0xFF07 0x05

/-- Chunked evaluation facts for the 16384-tick timer scenario: state,
accumulated interrupt bits and overflow count after every 256 ticks. -/
theorem clock_scenario_16384 :
    (clockC2.step 16384) = (⟨16384, false, 0, 0, 5⟩, 4) ∧
    clockC2.overflowCount 16384 = 4 := by
  have h1 : (⟨0, false, 0, 0, 5⟩ : Clock).step 256 = (⟨256, false, 16, 0, 5⟩, 0) := by decide
  have o1 : (⟨0, false, 0, 0, 5⟩ : Clock).overflowCount 256 = 0 := by decide
  have h2 : (⟨256, false, 16, 0, 5⟩ : Clock).step 256 = (⟨512, false, 32, 0, 5⟩, 0) := by decide
  have o2 : (⟨256, false, 16, 0, 5⟩ : Clock).overflowCount 256 = 0 := by decide
  have h3 : (⟨512, false, 32, 0, 5⟩ : Clock).step 256 = (⟨768, false, 48, 0, 5⟩, 0) := by decide
  have o3 : (⟨512, false, 32, 0, 5⟩ : Clock).overflowCount 256 = 0 := by decide
  have h4 : (⟨768, false, 48, 0, 5⟩ : Clock).step 256 = (⟨1024, false, 64, 0, 5⟩, 0) := by decide
  have o4 : (⟨768, false, 48, 0, 5⟩ : Clock).overflowCount 256 = 0 := by decide
  have h5 : (⟨1024, false, 64, 0, 5⟩ : Clock).step 256 = (⟨1280, false, 80, 0, 5⟩, 0) := by decide
  have o5 : (⟨1024, false, 64, 0, 5⟩ : Clock).overflowCount 256 = 0 := by decide
  have h6 : (⟨1280, false, 80, 0, 5⟩ : Clock).step 256 = (⟨1536, false, 96, 0, 5⟩, 0) := by decide
  have o6 : (⟨1280, false, 80, 0, 5⟩ : Clock).overflowCount 256 = 0 := by decide
  have h7 : (⟨1536, false, 96, 0, 5⟩ : Clock).step 256 = (⟨1792, false, 112, 0, 5⟩, 0) := by decide
  have o7 : (⟨1536, false, 96, 0, 5⟩ : Clock).overflowCount 256 = 0 := by decide
  have h8 : (⟨1792, false, 112, 0, 5⟩ : Clock).step 256 = (⟨2048, false, 128, 0, 5⟩, 0) := by decide
  have o8 : (⟨1792, false, 112, 0, 5⟩ : Clock).overflowCount 256 = 0 := by decide
  have h9 : (⟨2048, false, 128, 0, 5⟩ : Clock).step 256 = (⟨2304, false, 144, 0, 5⟩, 0) := by decide
  have o9 : (⟨2048, false, 128, 0, 5⟩ : Clock).overflowCount 256 = 0 := by decide
  have h10 : (⟨2304, false, 144, 0, 5⟩ : Clock).step 256 = (⟨2560, false, 160, 0, 5⟩, 0) := by decide
  have o10 : (⟨2304, false, 144, 0, 5⟩ : Clock).overflowCount 256 = 0 := by decide
  have h11 : (⟨2560, false, 160, 0, 5⟩ : Clock).step 256 = (⟨2816, false, 176, 0, 5⟩, 0) := by decide
  have o11 : (⟨2560, false, 160, 0, 5⟩ : Clock).overflowCount 256 = 0 := by decide
  have h12 : (⟨2816, false, 176, 0, 5⟩ : Clock).step 256 = (⟨3072, false, 192, 0, 5⟩, 0) := by decide
  have o12 : (⟨2816, false, 176, 0, 5⟩ : Clock).overflowCount 256 = 0 := by decide
  have h13 : (⟨3072, false, 192, 0, 5⟩ : Clock).step 256 = (⟨3328, false, 208, 0, 5⟩, 0) := by decide
  have o13 : (⟨3072, false, 192, 0, 5⟩ : Clock).overflowCount 256 = 0 := by decide
  have h14 : (⟨3328, false, 208, 0, 5⟩ : Clock).step 256 = (⟨3584, false, 224, 0, 5⟩, 0) := by decide
  have o14 : (⟨3328, false, 208, 0, 5⟩ : Clock).overflowCount 256 = 0 := by decide
  have h15 : (⟨3584, false, 224, 0, 5⟩ : Clock).step 256 = (⟨3840, false, 240, 0, 5⟩, 0) := by decide
  have o15 : (⟨3584, false, 224, 0, 5⟩ : Clock).overflowCount 256 = 0 := by decide
  have h16 : (⟨3840, false, 240, 0, 5⟩ : Clock).step 256 = (⟨4096, false, 0, 0, 5⟩, 4) := by decide
  have o16 : (⟨3840, false, 240, 0, 5⟩ : Clock).overflowCount 256 = 1 := by decide
  have h17 : (⟨4096, false, 0, 0, 5⟩ : Clock).step 256 = (⟨4352, false, 16, 0, 5⟩, 0) := by decide
  have o17 : (⟨4096, false, 0, 0, 5⟩ : Clock).overflowCount 256 = 0 := by decide
  have h18 : (⟨4352, false, 16, 0, 5⟩ : Clock).step 256 = (⟨4608, false, 32, 0, 5⟩, 0) := by decide
  have o18 : (⟨4352, false, 16, 0, 5⟩ : Clock).overflowCount 256 = 0 := by decide
  have h19 : (⟨4608, false, 32, 0, 5⟩ : Clock).step 256 = (⟨4864, false, 48, 0, 5⟩, 0) := by decide
  have o19 : (⟨4608, false, 32, 0, 5⟩ : Clock).overflowCount 256 = 0 := by decide
  have h20 : (⟨4864, false, 48, 0, 5⟩ : Clock).step 256 = (⟨5120, false, 64, 0, 5⟩, 0) := by decide
  have o20 : (⟨4864, false, 48, 0, 5⟩ : Clock).overflowCount 256 = 0 := by decide
  have h21 : (⟨5120, false, 64, 0, 5⟩ : Clock).step 256 = (⟨5376, false, 80, 0, 5⟩, 0) := by decide
  have o21 : (⟨5120, false, 64, 0, 5⟩ : Clock).overflowCount 256 = 0 := by decide
  have h22 : (⟨5376, false, 80, 0, 5⟩ : Clock).step 256 = (⟨5632, false, 96, 0, 5⟩, 0) := by decide
  have o22 : (⟨5376, false, 80, 0, 5⟩ : Clock).overflowCount 256 = 0 := by decide
  have h23 : (⟨5632, false, 96, 0, 5⟩ : Clock).step 256 = (⟨5888, false, 112, 0, 5⟩, 0) := by decide
  have o23 : (⟨5632, false, 96, 0, 5⟩ : Clock).overflowCount 256 = 0 := by decide
  have h24 : (⟨5888, false, 112, 0, 5⟩ : Clock).step 256 = (⟨6144, false, 128, 0, 5⟩, 0) := by decide
  have o24 : (⟨5888, false, 112, 0, 5⟩ : Clock).overflowCount 256 = 0 := by decide
  have h25 : (⟨6144, false, 128, 0, 5⟩ : Clock).step 256 = (⟨6400, false, 144, 0, 5⟩, 0) := by decide
  have o25 : (⟨6144, false, 128, 0, 5⟩ : Clock).overflowCount 256 = 0 := by decide
  have h26 : (⟨6400, false, 144, 0, 5⟩ : Clock).step 256 = (⟨6656, false, 160, 0, 5⟩, 0) := by decide
  have o26 : (⟨6400, false, 144, 0, 5⟩ : Clock).overflowCount 256 = 0 := by decide
  have h27 : (⟨6656, false, 160, 0, 5⟩ : Clock).step 256 = (⟨6912, false, 176, 0, 5⟩, 0) := by decide
  have o27 : (⟨6656, false, 160, 0, 5⟩ : Clock).overflowCount 256 = 0 := by decide
  have h28 : (⟨6912, false, 176, 0, 5⟩ : Clock).step 256 = (⟨7168, false, 192, 0, 5⟩, 0) := by decide
  have o28 : (⟨6912, false, 176, 0, 5⟩ : Clock).overflowCount 256 = 0 := by decide
  have h29 : (⟨7168, false, 192, 0, 5⟩ : Clock).step 256 = (⟨7424, false, 208, 0, 5⟩, 0) := by decide
  have o29 : (⟨7168, false, 192, 0, 5⟩ : Clock).overflowCount 256 = 0 := by decide
  have h30 : (⟨7424, false, 208, 0, 5⟩ : Clock).step 256 = (⟨7680, false, 224, 0, 5⟩, 0) := by decide
  have o30 : (⟨7424, false, 208, 0, 5⟩ : Clock).overflowCount 256 = 0 := by decide
  have h31 : (⟨7680, false, 224, 0, 5⟩ : Clock).step 256 = (⟨7936, false, 240, 0, 5⟩, 0) := by decide
  have o31 : (⟨7680, false, 224, 0, 5⟩ : Clock).overflowCount 256 = 0 := by decide
  have h32 : (⟨7936, false, 240, 0, 5⟩ : Clock).step 256 = (⟨8192, false, 0, 0, 5⟩, 4) := by decide
  have o32 : (⟨7936, false, 240, 0, 5⟩ : Clock).overflowCount 256 = 1 := by decide
  have h33 : (⟨8192, false, 0, 0, 5⟩ : Clock).step 256 = (⟨8448, false, 16, 0, 5⟩, 0) := by decide
  have o33 : (⟨8192, false, 0, 0, 5⟩ : Clock).overflowCount 256 = 0 := by decide
  have h34 : (⟨8448, false, 16, 0, 5⟩ : Clock).step 256 = (⟨8704, false, 32, 0, 5⟩, 0) := by decide
  have o34 : (⟨8448, false, 16, 0, 5⟩ : Clock).overflowCount 256 = 0 := by decide
  have h35 : (⟨8704, false, 32, 0, 5⟩ : Clock).step 256 = (⟨8960, false, 48, 0, 5⟩, 0) := by decide
  have o35 : (⟨8704, false, 32, 0, 5⟩ : Clock).overflowCount 256 = 0 := by decide
  have h36 : (⟨8960, false, 48, 0, 5⟩ : Clock).step 256 = (⟨9216, false, 64, 0, 5⟩, 0) := by decide
  have o36 : (⟨8960, false, 48, 0, 5⟩ : Clock).overflowCount 256 = 0 := by decide
  have h37 : (⟨9216, false, 64, 0, 5⟩ : Clock).step 256 = (⟨9472, false, 80, 0, 5⟩, 0) := by decide
  have o37 : (⟨9216, false, 64, 0, 5⟩ : Clock).overflowCount 256 = 0 := by decide
  have h38 : (⟨9472, false, 80, 0, 5⟩ : Clock).step 256 = (⟨9728, false, 96, 0, 5⟩, 0) := by decide
  have o38 : (⟨9472, false, 80, 0, 5⟩ : Clock).overflowCount 256 = 0 := by decide
  have h39 : (⟨9728, false, 96, 0, 5⟩ : Clock).step 256 = (⟨9984, false, 112, 0, 5⟩, 0) := by decide
  have o39 : (⟨9728, false, 96, 0, 5⟩ : Clock).overflowCount 256 = 0 := by decide
  have h40 : (⟨9984, false, 112, 0, 5⟩ : Clock).step 256 = (⟨10240, false, 128, 0, 5⟩, 0) := by decide
  have o40 : (⟨9984, false, 112, 0, 5⟩ : Clock).overflowCount 256 = 0 := by decide
  have h41 : (⟨10240, false, 128, 0, 5⟩ : Clock).step 256 = (⟨10496, false, 144, 0, 5⟩, 0) := by decide
  have o41 : (⟨10240, false, 128, 0, 5⟩ : Clock).overflowCount 256 = 0 := by decide
  have h42 : (⟨10496, false, 144, 0, 5⟩ : Clock).step 256 = (⟨10752, false, 160, 0, 5⟩, 0) := by decide
  have o42 : (⟨10496, false, 144, 0, 5⟩ : Clock).overflowCount 256 = 0 := by decide
  have h43 : (⟨10752, false, 160, 0, 5⟩ : Clock).step 256 = (⟨11008, false, 176, 0, 5⟩, 0) := by decide
  have o43 : (⟨10752, false, 160, 0, 5⟩ : Clock).overflowCount 256 = 0 := by decide
  have h44 : (⟨11008, false, 176, 0, 5⟩ : Clock).step 256 = (⟨11264, false, 192, 0, 5⟩, 0) := by decide
  have o44 : (⟨11008, false, 176, 0, 5⟩ : Clock).overflowCount 256 = 0 := by decide
  have h45 : (⟨11264, false, 192, 0, 5⟩ : Clock).step 256 = (⟨11520, false, 208, 0, 5⟩, 0) := by decide
  have o45 : (⟨11264, false, 192, 0, 5⟩ : Clock).overflowCount 256 = 0 := by decide
  have h46 : (⟨11520, false, 208, 0, 5⟩ : Clock).step 256 = (⟨11776, false, 224, 0, 5⟩, 0) := by decide
  have o46 : (⟨11520, false, 208, 0, 5⟩ : Clock).overflowCount 256 = 0 := by decide
  have h47 : (⟨11776, false, 224, 0, 5⟩ : Clock).step 256 = (⟨12032, false, 240, 0, 5⟩, 0) := by decide
  have o47 : (⟨11776, false, 224, 0, 5⟩ : Clock).overflowCount 256 = 0 := by decide
  have h48 : (⟨12032, false, 240, 0, 5⟩ : Clock).step 256 = (⟨12288, false, 0, 0, 5⟩, 4) := by decide
  have o48 : (⟨12032, false, 240, 0, 5⟩ : Clock).overflowCount 256 = 1 := by decide
  have h49 : (⟨12288, false, 0, 0, 5⟩ : Clock).step 256 = (⟨12544, false, 16, 0, 5⟩, 0) := by decide
  have o49 : (⟨12288, false, 0, 0, 5⟩ : Clock).overflowCount 256 = 0 := by decide
  have h50 : (⟨12544, false, 16, 0, 5⟩ : Clock).step 256 = (⟨12800, false, 32, 0, 5⟩, 0) := by decide
  have o50 : (⟨12544, false, 16, 0, 5⟩ : Clock).overflowCount 256 = 0 := by decide
  have h51 : (⟨12800, false, 32, 0, 5⟩ : Clock).step 256 = (⟨13056, false, 48, 0, 5⟩, 0) := by decide
  have o51 : (⟨12800, false, 32, 0, 5⟩ : Clock).overflowCount 256 = 0 := by decide
  have h52 : (⟨13056, false, 48, 0, 5⟩ : Clock).step 256 = (⟨13312, false, 64, 0, 5⟩, 0) := by decide
  have o52 : (⟨13056, false, 48, 0, 5⟩ : Clock).overflowCount 256 = 0 := by decide
  have h53 : (⟨13312, false, 64, 0, 5⟩ : Clock).step 256 = (⟨13568, false, 80, 0, 5⟩, 0) := by decide
  have o53 : (⟨13312, false, 64, 0, 5⟩ : Clock).overflowCount 256 = 0 := by decide
  have h54 : (⟨13568, false, 80, 0, 5⟩ : Clock).step 256 = (⟨13824, false, 96, 0, 5⟩, 0) := by decide
  have o54 : (⟨13568, false, 80, 0, 5⟩ : Clock).overflowCount 256 = 0 := by decide
  have h55 : (⟨13824, false, 96, 0, 5⟩ : Clock).step 256 = (⟨14080, false, 112, 0, 5⟩, 0) := by decide
  have o55 : (⟨13824, false, 96, 0, 5⟩ : Clock).overflowCount 256 = 0 := by decide
  have h56 : (⟨14080, false, 112, 0, 5⟩ : Clock).step 256 = (⟨14336, false, 128, 0, 5⟩, 0) := by decide
  have o56 : (⟨14080, false, 112, 0, 5⟩ : Clock).overflowCount 256 = 0 := by decide
  have h57 : (⟨14336, false, 128, 0, 5⟩ : Clock).step 256 = (⟨14592, false, 144, 0, 5⟩, 0) := by decide
  have o57 : (⟨14336, false, 128, 0, 5⟩ : Clock).overflowCount 256 = 0 := by decide
  have h58 : (⟨14592, false, 144, 0, 5⟩ : Clock).step 256 = (⟨14848, false, 160, 0, 5⟩, 0) := by decide
  have o58 : (⟨14592, false, 144, 0, 5⟩ : Clock).overflowCount 256 = 0 := by decide
  have h59 : (⟨14848, false, 160, 0, 5⟩ : Clock).step 256 = (⟨15104, false, 176, 0, 5⟩, 0) := by decide
  have o59 : (⟨14848, false, 160, 0, 5⟩ : Clock).overflowCount 256 = 0 := by decide
  have h60 : (⟨15104, false, 176, 0, 5⟩ : Clock).step 256 = (⟨15360, false, 192, 0, 5⟩, 0) := by decide
  have o60 : (⟨15104, false, 176, 0, 5⟩ : Clock).overflowCount 256 = 0 := by decide
  have h61 : (⟨15360, false, 192, 0, 5⟩ : Clock).step 256 = (⟨15616, false, 208, 0, 5⟩, 0) := by decide
  have o61 : (⟨15360, false, 192, 0, 5⟩ : Clock).overflowCount 256 = 0 := by decide
  have h62 : (⟨15616, false, 208, 0, 5⟩ : Clock).step 256 = (⟨15872, false, 224, 0, 5⟩, 0) := by decide
  have o62 : (⟨15616, false, 208, 0, 5⟩ : Clock).overflowCount 256 = 0 := by decide
  have h63 : (⟨15872, false, 224, 0, 5⟩ : Clock).step 256 = (⟨16128, false, 240, 0, 5⟩, 0) := by decide
  have o63 : (⟨15872, false, 224, 0, 5⟩ : Clock).overflowCount 256 = 0 := by decide
  have h64 : (⟨16128, false, 240, 0, 5⟩ : Clock).step 256 = (⟨16384, false, 0, 0, 5⟩, 4) := by decide
  have o64 : (⟨16128, false, 240, 0, 5⟩ : Clock).overflowCount 256 = 1 := by decide
  have H1 : clockC2.step 256 = (⟨256, false, 16, 0, 5⟩, 0) := by
    show (⟨0, false, 0, 0, 5⟩ : Clock).step 256 = _
    exact h1
  have O1 : clockC2.overflowCount 256 = 0 := by
    show (⟨0, false, 0, 0, 5⟩ : Clock).overflowCount 256 = _
    exact o1
  have H2 : clockC2.step 512 = (⟨512, false, 32, 0, 5⟩, 0) := by
    have := Clock.step_chain H1 h2
    simpa using this
  have O2 : clockC2.overflowCount 512 = 0 := by
    have := Clock.overflowCount_chain H1 O1 o2
    simpa using this
  have H3 : clockC2.step 768 = (⟨768, false, 48, 0, 5⟩, 0) := by
    have := Clock.step_chain H2 h3
    simpa using this
  have O3 : clockC2.overflowCount 768 = 0 := by
    have := Clock.overflowCount_chain H2 O2 o3
    simpa using this
  have H4 : clockC2.step 1024 = (⟨1024, false, 64, 0, 5⟩, 0) := by
    have := Clock.step_chain H3 h4
    simpa using this
  have O4 : clockC2.overflowCount 1024 = 0 := by
    have := Clock.overflowCount_chain H3 O3 o4
    simpa using this
  have H5 : clockC2.step 1280 = (⟨1280, false, 80, 0, 5⟩, 0) := by
    have := Clock.step_chain H4 h5
    simpa using this
  have O5 : clockC2.overflowCount 1280 = 0 := by
    have := Clock.overflowCount_chain H4 O4 o5
    simpa using this
  have H6 : clockC2.step 1536 = (⟨1536, false, 96, 0, 5⟩, 0) := by
    have := Clock.step_chain H5 h6
    simpa using this
  have O6 : clockC2.overflowCount 1536 = 0 := by
    have := Clock.overflowCount_chain H5 O5 o6
    simpa using this
  have H7 : clockC2.step 1792 = (⟨1792, false, 112, 0, 5⟩, 0) := by
    have := Clock.step_chain H6 h7
    simpa using this
  have O7 : clockC2.overflowCount 1792 = 0 := by
    have := Clock.overflowCount_chain H6 O6 o7
    simpa using this
  have H8 : clockC2.step 2048 = (⟨2048, false, 128, 0, 5⟩, 0) := by
    have := Clock.step_chain H7 h8
    simpa using this
  have O8 : clockC2.overflowCount 2048 = 0 := by
    have := Clock.overflowCount_chain H7 O7 o8
    simpa using this
  have H9 : clockC2.step 2304 = (⟨2304, false, 144, 0, 5⟩, 0) := by
    have := Clock.step_chain H8 h9
    simpa using this
  have O9 : clockC2.overflowCount 2304 = 0 := by
    have := Clock.overflowCount_chain H8 O8 o9
    simpa using this
  have H10 : clockC2.step 2560 = (⟨2560, false, 160, 0, 5⟩, 0) := by
    have := Clock.step_chain H9 h10
    simpa using this
  have O10 : clockC2.overflowCount 2560 = 0 := by
    have := Clock.overflowCount_chain H9 O9 o10
    simpa using this
  have H11 : clockC2.step 2816 = (⟨2816, false, 176, 0, 5⟩, 0) := by
    have := Clock.step_chain H10 h11
    simpa using this
  have O11 : clockC2.overflowCount 2816 = 0 := by
    have := Clock.overflowCount_chain H10 O10 o11
    simpa using this
  have H12 : clockC2.step 3072 = (⟨3072, false, 192, 0, 5⟩, 0) := by
    have := Clock.step_chain H11 h12
    simpa using this
  have O12 : clockC2.overflowCount 3072 = 0 := by
    have := Clock.overflowCount_chain H11 O11 o12
    simpa using this
  have H13 : clockC2.step 3328 = (⟨3328, false, 208, 0, 5⟩, 0) := by
    have := Clock.step_chain H12 h13
    simpa using this
  have O13 : clockC2.overflowCount 3328 = 0 := by
    have := Clock.overflowCount_chain H12 O12 o13
    simpa using this
  have H14 : clockC2.step 3584 = (⟨3584, false, 224, 0, 5⟩, 0) := by
    have := Clock.step_chain H13 h14
    simpa using this
  have O14 : clockC2.overflowCount 3584 = 0 := by
    have := Clock.overflowCount_chain H13 O13 o14
    simpa using this
  have H15 : clockC2.step 3840 = (⟨3840, false, 240, 0, 5⟩, 0) := by
    have := Clock.step_chain H14 h15
    simpa using this
  have O15 : clockC2.overflowCount 3840 = 0 := by
    have := Clock.overflowCount_chain H14 O14 o15
    simpa using this
  have H16 : clockC2.step 4096 = (⟨4096, false, 0, 0, 5⟩, 4) := by
    have := Clock.step_chain H15 h16
    simpa using this
  have O16 : clockC2.overflowCount 4096 = 1 := by
    have := Clock.overflowCount_chain H15 O15 o16
    simpa using this
  have H17 : clockC2.step 4352 = (⟨4352, false, 16, 0, 5⟩, 4) := by
    have := Clock.step_chain H16 h17
    simpa using this
  have O17 : clockC2.overflowCount 4352 = 1 := by
    have := Clock.overflowCount_chain H16 O16 o17
    simpa using this
  have H18 : clockC2.step 4608 = (⟨4608, false, 32, 0, 5⟩, 4) := by
    have := Clock.step_chain H17 h18
    simpa using this
  have O18 : clockC2.overflowCount 4608 = 1 := by
    have := Clock.overflowCount_chain H17 O17 o18
    simpa using this
  have H19 : clockC2.step 4864 = (⟨4864, false, 48, 0, 5⟩, 4) := by
    have := Clock.step_chain H18 h19
    simpa using this
  have O19 : clockC2.overflowCount 4864 = 1 := by
    have := Clock.overflowCount_chain H18 O18 o19
    simpa using this
  have H20 : clockC2.step 5120 = (⟨5120, false, 64, 0, 5⟩, 4) := by
    have := Clock.step_chain H19 h20
    simpa using this
  have O20 : clockC2.overflowCount 5120 = 1 := by
    have := Clock.overflowCount_chain H19 O19 o20
    simpa using this
  have H21 : clockC2.step 5376 = (⟨5376, false, 80, 0, 5⟩, 4) := by
    have := Clock.step_chain H20 h21
    simpa using this
  have O21 : clockC2.overflowCount 5376 = 1 := by
    have := Clock.overflowCount_chain H20 O20 o21
    simpa using this
  have H22 : clockC2.step 5632 = (⟨5632, false, 96, 0, 5⟩, 4) := by
    have := Clock.step_chain H21 h22
    simpa using this
  have O22 : clockC2.overflowCount 5632 = 1 := by
    have := Clock.overflowCount_chain H21 O21 o22
    simpa using this
  have H23 : clockC2.step 5888 = (⟨5888, false, 112, 0, 5⟩, 4) := by
    have := Clock.step_chain H22 h23
    simpa using this
  have O23 : clockC2.overflowCount 5888 = 1 := by
    have := Clock.overflowCount_chain H22 O22 o23
    simpa using this
  have H24 : clockC2.step 6144 = (⟨6144, false, 128, 0, 5⟩, 4) := by
    have := Clock.step_chain H23 h24
    simpa using this
  have O24 : clockC2.overflowCount 6144 = 1 := by
    have := Clock.overflowCount_chain H23 O23 o24
    simpa using this
  have H25 : clockC2.step 6400 = (⟨6400, false, 144, 0, 5⟩, 4) := by
    have := Clock.step_chain H24 h25
    simpa using this
  have O25 : clockC2.overflowCount 6400 = 1 := by
    have := Clock.overflowCount_chain H24 O24 o25
    simpa using this
  have H26 : clockC2.step 6656 = (⟨6656, false, 160, 0, 5⟩, 4) := by
    have := Clock.step_chain H25 h26
    simpa using this
  have O26 : clockC2.overflowCount 6656 = 1 := by
    have := Clock.overflowCount_chain H25 O25 o26
    simpa using this
  have H27 : clockC2.step 6912 = (⟨6912, false, 176, 0, 5⟩, 4) := by
    have := Clock.step_chain H26 h27
    simpa using this
  have O27 : clockC2.overflowCount 6912 = 1 := by
    have := Clock.overflowCount_chain H26 O26 o27
    simpa using this
  have H28 : clockC2.step 7168 = (⟨7168, false, 192, 0, 5⟩, 4) := by
    have := Clock.step_chain H27 h28
    simpa using this
  have O28 : clockC2.overflowCount 7168 = 1 := by
    have := Clock.overflowCount_chain H27 O27 o28
    simpa using this
  have H29 : clockC2.step 7424 = (⟨7424, false, 208, 0, 5⟩, 4) := by
    have := Clock.step_chain H28 h29
    simpa using this
  have O29 : clockC2.overflowCount 7424 = 1 := by
    have := Clock.overflowCount_chain H28 O28 o29
    simpa using this
  have H30 : clockC2.step 7680 = (⟨7680, false, 224, 0, 5⟩, 4) := by
    have := Clock.step_chain H29 h30
    simpa using this
  have O30 : clockC2.overflowCount 7680 = 1 := by
    have := Clock.overflowCount_chain H29 O29 o30
    simpa using this
  have H31 : clockC2.step 7936 = (⟨7936, false, 240, 0, 5⟩, 4) := by
    have := Clock.step_chain H30 h31
    simpa using this
  have O31 : clockC2.overflowCount 7936 = 1 := by
    have := Clock.overflowCount_chain H30 O30 o31
    simpa using this
  have H32 : clockC2.step 8192 = (⟨8192, false, 0, 0, 5⟩, 4) := by
    have := Clock.step_chain H31 h32
    simpa using this
  have O32 : clockC2.overflowCount 8192 = 2 := by
    have := Clock.overflowCount_chain H31 O31 o32
    simpa using this
  have H33 : clockC2.step 8448 = (⟨8448, false, 16, 0, 5⟩, 4) := by
    have := Clock.step_chain H32 h33
    simpa using this
  have O33 : clockC2.overflowCount 8448 = 2 := by
    have := Clock.overflowCount_chain H32 O32 o33
    simpa using this
  have H34 : clockC2.step 8704 = (⟨8704, false, 32, 0, 5⟩, 4) := by
    have := Clock.step_chain H33 h34
    simpa using this
  have O34 : clockC2.overflowCount 8704 = 2 := by
    have := Clock.overflowCount_chain H33 O33 o34
    simpa using this
  have H35 : clockC2.step 8960 = (⟨8960, false, 48, 0, 5⟩, 4) := by
    have := Clock.step_chain H34 h35
    simpa using this
  have O35 : clockC2.overflowCount 8960 = 2 := by
    have := Clock.overflowCount_chain H34 O34 o35
    simpa using this
  have H36 : clockC2.step 9216 = (⟨9216, false, 64, 0, 5⟩, 4) := by
    have := Clock.step_chain H35 h36
    simpa using this
  have O36 : clockC2.overflowCount 9216 = 2 := by
    have := Clock.overflowCount_chain H35 O35 o36
    simpa using this
  have H37 : clockC2.step 9472 = (⟨9472, false, 80, 0, 5⟩, 4) := by
    have := Clock.step_chain H36 h37
    simpa using this
  have O37 : clockC2.overflowCount 9472 = 2 := by
    have := Clock.overflowCount_chain H36 O36 o37
    simpa using this
  have H38 : clockC2.step 9728 = (⟨9728, false, 96, 0, 5⟩, 4) := by
    have := Clock.step_chain H37 h38
    simpa using this
  have O38 : clockC2.overflowCount 9728 = 2 := by
    have := Clock.overflowCount_chain H37 O37 o38
    simpa using this
  have H39 : clockC2.step 9984 = (⟨9984, false, 112, 0, 5⟩, 4) := by
    have := Clock.step_chain H38 h39
    simpa using this
  have O39 : clockC2.overflowCount 9984 = 2 := by
    have := Clock.overflowCount_chain H38 O38 o39
    simpa using this
  have H40 : clockC2.step 10240 = (⟨10240, false, 128, 0, 5⟩, 4) := by
    have := Clock.step_chain H39 h40
    simpa using this
  have O40 : clockC2.overflowCount 10240 = 2 := by
    have := Clock.overflowCount_chain H39 O39 o40
    simpa using this
  have H41 : clockC2.step 10496 = (⟨10496, false, 144, 0, 5⟩, 4) := by
    have := Clock.step_chain H40 h41
    simpa using this
  have O41 : clockC2.overflowCount 10496 = 2 := by
    have := Clock.overflowCount_chain H40 O40 o41
    simpa using this
  have H42 : clockC2.step 10752 = (⟨10752, false, 160, 0, 5⟩, 4) := by
    have := Clock.step_chain H41 h42
    simpa using this
  have O42 : clockC2.overflowCount 10752 = 2 := by
    have := Clock.overflowCount_chain H41 O41 o42
    simpa using this
  have H43 : clockC2.step 11008 = (⟨11008, false, 176, 0, 5⟩, 4) := by
    have := Clock.step_chain H42 h43
    simpa using this
  have O43 : clockC2.overflowCount 11008 = 2 := by
    have := Clock.overflowCount_chain H42 O42 o43
    simpa using this
  have H44 : clockC2.step 11264 = (⟨11264, false, 192, 0, 5⟩, 4) := by
    have := Clock.step_chain H43 h44
    simpa using this
  have O44 : clockC2.overflowCount 11264 = 2 := by
    have := Clock.overflowCount_chain H43 O43 o44
    simpa using this
  have H45 : clockC2.step 11520 = (⟨11520, false, 208, 0, 5⟩, 4) := by
    have := Clock.step_chain H44 h45
    simpa using this
  have O45 : clockC2.overflowCount 11520 = 2 := by
    have := Clock.overflowCount_chain H44 O44 o45
    simpa using this
  have H46 : clockC2.step 11776 = (⟨11776, false, 224, 0, 5⟩, 4) := by
    have := Clock.step_chain H45 h46
    simpa using this
  have O46 : clockC2.overflowCount 11776 = 2 := by
    have := Clock.overflowCount_chain H45 O45 o46
    simpa using this
  have H47 : clockC2.step 12032 = (⟨12032, false, 240, 0, 5⟩, 4) := by
    have := Clock.step_chain H46 h47
    simpa using this
  have O47 : clockC2.overflowCount 12032 = 2 := by
    have := Clock.overflowCount_chain H46 O46 o47
    simpa using this
  have H48 : clockC2.step 12288 = (⟨12288, false, 0, 0, 5⟩, 4) := by
    have := Clock.step_chain H47 h48
    simpa using this
  have O48 : clockC2.overflowCount 12288 = 3 := by
    have := Clock.overflowCount_chain H47 O47 o48
    simpa using this
  have H49 : clockC2.step 12544 = (⟨12544, false, 16, 0, 5⟩, 4) := by
    have := Clock.step_chain H48 h49
    simpa using this
  have O49 : clockC2.overflowCount 12544 = 3 := by
    have := Clock.overflowCount_chain H48 O48 o49
    simpa using this
  have H50 : clockC2.step 12800 = (⟨12800, false, 32, 0, 5⟩, 4) := by
    have := Clock.step_chain H49 h50
    simpa using this
  have O50 : clockC2.overflowCount 12800 = 3 := by
    have := Clock.overflowCount_chain H49 O49 o50
    simpa using this
  have H51 : clockC2.step 13056 = (⟨13056, false, 48, 0, 5⟩, 4) := by
    have := Clock.step_chain H50 h51
    simpa using this
  have O51 : clockC2.overflowCount 13056 = 3 := by
    have := Clock.overflowCount_chain H50 O50 o51
    simpa using this
  have H52 : clockC2.step 13312 = (⟨13312, false, 64, 0, 5⟩, 4) := by
    have := Clock.step_chain H51 h52
    simpa using this
  have O52 : clockC2.overflowCount 13312 = 3 := by
    have := Clock.overflowCount_chain H51 O51 o52
    simpa using this
  have H53 : clockC2.step 13568 = (⟨13568, false, 80, 0, 5⟩, 4) := by
    have := Clock.step_chain H52 h53
    simpa using this
  have O53 : clockC2.overflowCount 13568 = 3 := by
    have := Clock.overflowCount_chain H52 O52 o53
    simpa using this
  have H54 : clockC2.step 13824 = (⟨13824, false, 96, 0, 5⟩, 4) := by
    have := Clock.step_chain H53 h54
    simpa using this
  have O54 : clockC2.overflowCount 13824 = 3 := by
    have := Clock.overflowCount_chain H53 O53 o54
    simpa using this
  have H55 : clockC2.step 14080 = (⟨14080, false, 112, 0, 5⟩, 4) := by
    have := Clock.step_chain H54 h55
    simpa using this
  have O55 : clockC2.overflowCount 14080 = 3 := by
    have := Clock.overflowCount_chain H54 O54 o55
    simpa using this
  have H56 : clockC2.step 14336 = (⟨14336, false, 128, 0, 5⟩, 4) := by
    have := Clock.step_chain H55 h56
    simpa using this
  have O56 : clockC2.overflowCount 14336 = 3 := by
    have := Clock.overflowCount_chain H55 O55 o56
    simpa using this
  have H57 : clockC2.step 14592 = (⟨14592, false, 144, 0, 5⟩, 4) := by
    have := Clock.step_chain H56 h57
    simpa using this
  have O57 : clockC2.overflowCount 14592 = 3 := by
    have := Clock.overflowCount_chain H56 O56 o57
    simpa using this
  have H58 : clockC2.step 14848 = (⟨14848, false, 160, 0, 5⟩, 4) := by
    have := Clock.step_chain H57 h58
    simpa using this
  have O58 : clockC2.overflowCount 14848 = 3 := by
    have := Clock.overflowCount_chain H57 O57 o58
    simpa using this
  have H59 : clockC2.step 15104 = (⟨15104, false, 176, 0, 5⟩, 4) := by
    have := Clock.step_chain H58 h59
    simpa using this
  have O59 : clockC2.overflowCount 15104 = 3 := by
    have := Clock.overflowCount_chain H58 O58 o59
    simpa using this
  have H60 : clockC2.step 15360 = (⟨15360, false, 192, 0, 5⟩, 4) := by
    have := Clock.step_chain H59 h60
    simpa using this
  have O60 : clockC2.overflowCount 15360 = 3 := by
    have := Clock.overflowCount_chain H59 O59 o60
    simpa using this
  have H61 : clockC2.step 15616 = (⟨15616, false, 208, 0, 5⟩, 4) := by
    have := Clock.step_chain H60 h61
    simpa using this
  have O61 : clockC2.overflowCount 15616 = 3 := by
    have := Clock.overflowCount_chain H60 O60 o61
    simpa using this
  have H62 : clockC2.step 15872 = (⟨15872, false, 224, 0, 5⟩, 4) := by
    have := Clock.step_chain H61 h62
    simpa using this
  have O62 : clockC2.overflowCount 15872 = 3 := by
    have := Clock.overflowCount_chain H61 O61 o62
    simpa using this
  have H63 : clockC2.step 16128 = (⟨16128, false, 240, 0, 5⟩, 4) := by
    have := Clock.step_chain H62 h63
    simpa using this
  have O63 : clockC2.overflowCount 16128 = 3 := by
    have := Clock.overflowCount_chain H62 O62 o63
    simpa using this
  have H64 : clockC2.step 16384 = (⟨16384, false, 0, 0, 5⟩, 4) := by
    have := Clock.step_chain H63 h64
    simpa using this
  have O64 : clockC2.overflowCount 16384 = 4 := by
    have := Clock.overflowCount_chain H63 O63 o64
    simpa using this
  exact ⟨H64, O64⟩

/-- Falling edge of the timer input during one tick, as the specification
words it: the stored previous-edge memory is 1 and the new value of
(TAC enable AND selected sysclock bit) is 0. -/
def fallingEdge (c : Clock) : Prop :=
  c.prev_edge_bit = true ∧
    ((c.tac &&& 0x04 != 0) && (u16 (c.sysclock + 1) &&& Clock.tima_bit c.tac != 0)) = false

instance (c : Clock) : Decidable (fallingEdge c) := by
  unfold fallingEdge
  infer_instance

/-- C2: from the timer reset state with TAC = 0x05, TIMA = TMA = 0, 64 ticks
leave TIMA = 4; 16384 ticks produce exactly 4 TIMA overflows, each raising
the TIMER bit of IF; and on every single tick TIMA increments by exactly 1
precisely on a 1-to-0 transition of (selected sysclock bit AND TAC enable),
overflow from 0xFF reloading TIMA from TMA and raising the TIMER interrupt,
where the selected bit is 9, 3, 5 or 7 for TAC[1:0] = 0, 1, 2, 3. -/
theorem clock_tima_edge_behaviour :
    ((clockC2.step 64).1.tima = 4) ∧
    (clockC2.overflowCount 16384 = 4) ∧
    ((clockC2.step 16384).2 = INT_TIMER.1) ∧
    (∀ c : Clock,
      (c.tick).1.tima =
        (if fallingEdge c then (if c.tima < 0xFF then c.tima + 1 else c.tma) else c.tima) ∧
      (c.tick).2 = (if fallingEdge c ∧ ¬ c.tima < 0xFF then INT_TIMER.1 else 0)) ∧
    (∀ tac : Nat,
      (tac &&& 0x03 = 0 → Clock.tima_bit tac = 2 ^ 9) ∧
      (tac &&& 0x03 = 1 → Clock.tima_bit tac = 2 ^ 3) ∧
      (tac &&& 0x03 = 2 → Clock.tima_bit tac = 2 ^ 5) ∧
      (tac &&& 0x03 = 3 → Clock.tima_bit tac = 2 ^ 7)) := by
  refine ⟨by decide, clock_scenario_16384.2, ?_, ?_, ?_⟩
  · rw [clock_scenario_16384.1]
    rfl
  · intro c
    by_cases hp : c.prev_edge_bit = true <;>
      by_cases hq : ((c.tac &&& 0x04 != 0) &&
          (u16 (c.sysclock + 1) &&& Clock.tima_bit c.tac != 0)) = true <;>
        by_cases ht : c.tima < 0xFF <;>
    all_goals (
      have hfe : fallingEdge c ↔ (c.prev_edge_bit = true ∧
          ¬ ((c.tac &&& 0x04 != 0) &&
              (u16 (c.sysclock + 1) &&& Clock.tima_bit c.tac != 0)) = true) := by
        unfold fallingEdge
        constructor
        · rintro ⟨h1, h2⟩
          exact ⟨h1, by simp [h2]⟩
        · rintro ⟨h1, h2⟩
          exact ⟨h1, by simpa using h2⟩
      have hmod : c.tima < 0xFF → u8 (c.tima + 1) = c.tima + 1 := by
        intro h
        unfold u8
        omega
      simp only [Clock.tick, hfe]
      simp [hp, hq, ht, hmod, Bool.not_eq_true] at hfe ⊢)
  · intro tac
    refine ⟨fun h => ?_, fun h => ?_, fun h => ?_, fun h => ?_⟩ <;>
      · unfold Clock.tima_bit
        rw [h]
        rfl

theorem and32 (n : Nat) : n &&& 0x20 = 0 ∨ n &&& 0x20 = 0x20 := by
  have h := Nat.and_two_pow n 5
  rcases hb : n.testBit 5 <;> rw [hb] at h <;> simp at h <;> simp [h]

/-- C9: the value read back from the joypad register depends only on bit 5
of the last written value and the pressed keys; bit 5 clear selects the
button nibble, bit 5 set always selects the d-pad nibble (bit 4 of the
written value is ignored); the low nibble is 0x0F exactly when no key of
the selected row is pressed; bits 7, 6 and 4 of the returned byte are 0. -/
theorem joypad_register_read (k : Joypad) (joyp : Nat) :
    Joypad.get k joyp = Joypad.get k (joyp &&& 0x20) ∧
    (Joypad.get k joyp) &&& 0xD0 = 0 ∧
    (Joypad.get k joyp) &&& 0x0F =
      (if joyp &&& 0x20 = 0
       then (b2n !k.start) <<< 3 ||| (b2n !k.select) <<< 2 ||| (b2n !k.b) <<< 1 ||| (b2n !k.a)
       else (b2n !k.down) <<< 3 ||| (b2n !k.up) <<< 2 ||| (b2n !k.left) <<< 1 ||| (b2n !k.right)) ∧
    ((Joypad.get k joyp) &&& 0x0F = 0x0F ↔
      (if joyp &&& 0x20 = 0
       then k.start = false ∧ k.select = false ∧ k.b = false ∧ k.a = false
       else k.down = false ∧ k.up = false ∧ k.left = false ∧ k.right = false)) := by
  obtain ⟨a, b, up, down, left, right, st, sel⟩ := k
  rcases and32 joyp with h | h <;>
    simp only [Joypad.get, h] <;>
      cases a <;> cases b <;> cases up <;> cases down <;>
        cases left <;> cases right <;> cases st <;> cases sel <;> decide

/-! ### Cartridge controllers (mbc.rs) -/

/-- Cartridge ROM, a read-only byte slice: a length and the byte contents. -/
structure Rom where
  size : Nat
  data : Nat → Nat

/-- Indexing a byte vector; every access the theorems exercise is in bounds
(the source panics out of bounds). -/
def listGet (l : List Nat) (i : Nat) : Nat := l.getD i 0

/-- mbc.rs bank_addr (lines 103-105). -/
def bank_addr (addr bank_nr base size : Nat) : Nat :=
  (addr - base) + bank_nr * size

/-- mbc.rs mask_bank_nr (lines 107-109); the usize shift result is cast to
u16. -/
def mask_bank_nr (bank_nr size : Nat) : Nat :=
  bank_nr &&& u16 ((size - 1) >>> 14)

/-- MBC1 controller state (mbc.rs lines 134-140). -/
structure MBC1 where
  rom_bank : Nat
  ram_bank : Nat
  ram_enabled : Bool
  mode : Bool
deriving DecidableEq

/-- MBC1::default (mbc.rs lines 142-147). -/
def MBC1.default : MBC1 := ⟨1, 0, false, false⟩

/-- MBC1::ram_addr (mbc.rs lines 149-157); for empty RAM the source modulo
panics, unexercised here. -/
def MBC1.ram_addr (m : MBC1) (addr : Nat) (ram : List Nat) : Nat :=
  if ram.length ≤ 8 * 1024 then addr % ram.length
  else if !m.mode then addr - 0xA000
  else bank_addr addr m.ram_bank 0xA000 0x2000

/-- MBC1::high_bank (mbc.rs lines 159-180); bank_nr is a u8. -/
def MBC1.high_bank (m : MBC1) (rom_size : Nat) (zero : Bool) : Nat :=
  let bank_nr := if !zero then u8 (mask_bank_nr m.rom_bank rom_size) else 0
  let bank_nr :=
    if rom_size ≥ 64 * 16 * 1024 then
      if m.ram_bank &&& 0x01 != 0 then bank_nr ||| (1 <<< 5)
      else bank_nr &&& (255 ^^^ (1 <<< 5))
    else bank_nr
  if rom_size ≥ 128 * 16 * 1024 then
    if m.ram_bank &&& 0x02 != 0 then bank_nr ||| (1 <<< 6)
    else bank_nr &&& (255 ^^^ (1 <<< 6))
  else bank_nr

/-- MBC1::r (mbc.rs lines 183-201). -/
def MBC1.r (m : MBC1) (addr : Nat) (rom : Rom) (ram : List Nat) : Nat :=
  if addr ≤ 0x3FFF then
    if m.mode then rom.data (bank_addr addr (m.high_bank rom.size true) 0 0x4000)
    else rom.data addr
  else if addr ≤ 0x7FFF then
    rom.data (bank_addr addr (m.high_bank rom.size false) 0x4000 0x4000)
  else if 0xA000 ≤ addr ∧ addr ≤ 0xBFFF then
    if m.ram_enabled then listGet ram (m.ram_addr addr ram) else 0xFF
  else 0x00

/-- MBC1::w (mbc.rs lines 204-223). -/
def MBC1.w (m : MBC1) (addr val : Nat) (rom : Rom) (ram : List Nat) : MBC1 × List Nat :=
  if addr ≤ 0x1FFF then ({ m with ram_enabled := val &&& 0x0F == 0x0A }, ram)
  else if addr ≤ 0x3FFF then
    ({ m with rom_bank := if val &&& 0x1F != 0 then u8 (mask_bank_nr val rom.size) else 1 }, ram)
  else if addr ≤ 0x5FFF then ({ m with ram_bank := val &&& 0x03 }, ram)
  else if addr ≤ 0x7FFF then ({ m with mode := val &&& 0x01 != 0 }, ram)
  else if 0xA000 ≤ addr ∧ addr ≤ 0xBFFF then
    if m.ram_enabled then (m, ram.set (m.ram_addr addr ram) val) else (m, ram)
  else (m, ram)

def rom6 : Rom := ⟨0x100000, fun i => u8 (i / 0x4000)⟩

def mbc1C6 : MBC1 :=
  ((MBC1.default.w 0x2000 0x21 rom6 []).1.w 0x4000 0x01 rom6 []).1

example : mbc1C6.r 0x4000 rom6 [] = 0x21 ∧ rom6.data 0xA4000 = 0x29 := by
  constructor
  · norm_num [mbc1C6, rom6, MBC1.r, MBC1.w, MBC1.default, MBC1.high_bank, mask_bank_nr,
      bank_addr, u8, u16]
    decide
  · norm_num [rom6, u8]

example : mbc1C6.r 0x4000 rom6 [] ≠ rom6.data 0xA4000 := by
  norm_num [mbc1C6, rom6, MBC1.r, MBC1.w, MBC1.default, MBC1.high_bank, mask_bank_nr,
    bank_addr, u8, u16]
  decide

/-- MBC0 has no state (mbc.rs lines 121-132). -/
def MBC0.r (addr : Nat) (rom : Rom) : Nat :=
  if addr ≤ 0x7FFF then rom.data addr else 0x00

/-- MBC3 controller state (mbc.rs lines 226-239). -/
structure MBC3 where
  rom_bank : Nat
  ram_bank : Nat
  ram_enabled : Bool
  rtc_mapped : Bool
deriving DecidableEq

def MBC3.default : MBC3 := ⟨1, 0, false, false⟩

/-- MBC3::r (mbc.rs lines 242-257). -/
def MBC3.r (m : MBC3) (addr : Nat) (rom : Rom) (ram : List Nat) : Nat :=
  if addr ≤ 0x3FFF then rom.data addr
  else if addr ≤ 0x7FFF then rom.data (bank_addr addr m.rom_bank 0x4000 0x4000)
  else if 0xA000 ≤ addr ∧ addr ≤ 0xBFFF then
    if !m.ram_enabled then 0xFF
    else if m.rtc_mapped then 0x00
    else listGet ram (bank_addr addr m.ram_bank 0xA000 0x2000)
  else 0x00

/-- MBC3::w (mbc.rs lines 259-278). -/
def MBC3.w (m : MBC3) (addr val : Nat) (ram : List Nat) : MBC3 × List Nat :=
  if addr ≤ 0x1FFF then ({ m with ram_enabled := val &&& 0x0F == 0x0A }, ram)
  else if addr ≤ 0x3FFF then
    ({ m with rom_bank := if val &&& 0x7F != 0 then val &&& 0x7F else 1 }, ram)
  else if addr ≤ 0x5FFF then
    (if val &&& 0x0F ≤ 0x03 then { m with rtc_mapped := false, ram_bank := val &&& 0x03 }
     else if 0x08 ≤ val &&& 0x0F ∧ val &&& 0x0F ≤ 0x0C then { m with rtc_mapped := true }
     else m, ram)
  else if 0xA000 ≤ addr ∧ addr ≤ 0xBFFF then
    if m.ram_enabled then (m, ram.set (bank_addr addr m.ram_bank 0xA000 0x2000) val)
    else (m, ram)
  else (m, ram)

/-- MBC5 controller state (mbc.rs lines 281-293). -/
structure MBC5 where
  rom_bank : Nat
  ram_bank : Nat
  ram_enabled : Bool
deriving DecidableEq

def MBC5.default : MBC5 := ⟨1, 0, false⟩

/-- MBC5::r (mbc.rs lines 296-309). -/
def MBC5.r (m : MBC5) (addr : Nat) (rom : Rom) (ram : List Nat) : Nat :=
  if addr ≤ 0x3FFF then rom.data addr
  else if addr ≤ 0x7FFF then rom.data (bank_addr addr m.rom_bank 0x4000 0x4000)
  else if 0xA000 ≤ addr ∧ addr ≤ 0xBFFF then
    if m.ram_enabled then listGet ram (bank_addr addr m.ram_bank 0xA000 0x2000) else 0xFF
  else 0x00

/-- MBC5::w (mbc.rs lines 311-324). -/
def MBC5.w (m : MBC5) (addr val : Nat) (rom : Rom) (ram : List Nat) : MBC5 × List Nat :=
  if addr ≤ 0x1FFF then ({ m with ram_enabled := val &&& 0x0F == 0x0A }, ram)
  else if addr ≤ 0x2FFF then
    ({ m with rom_bank := mask_bank_nr ((m.rom_bank &&& 0xFF00) ||| ((val <<< 0) &&& 0x00FF)) rom.size }, ram)
  else if addr ≤ 0x3FFF then
    ({ m with rom_bank := mask_bank_nr ((m.rom_bank &&& 0x00FF) ||| ((val <<< 8) &&& 0x0100)) rom.size }, ram)
  else if addr ≤ 0x5FFF then ({ m with ram_bank := val &&& 0x0F }, ram)
  else if 0xA000 ≤ addr ∧ addr ≤ 0xBFFF then
    if m.ram_enabled then (m, ram.set (bank_addr addr m.ram_bank 0xA000 0x2000) val)
    else (m, ram)
  else (m, ram)

/-- The polymorphic controller (mbc.rs trait MBCType, new_mbc lines 111-119):
one variant per supported mapper. -/
inductive MBCType where
  | mbc0 : MBCType
  | mbc1 : MBC1 → MBCType
  | mbc3 : MBC3 → MBCType
  | mbc5 : MBC5 → MBCType

def MBCType.r : MBCType → Nat → Rom → List Nat → Nat
  | .mbc0, addr, rom, _ => MBC0.r addr rom
  | .mbc1 m, addr, rom, ram => m.r addr rom ram
  | .mbc3 m, addr, rom, ram => m.r addr rom ram
  | .mbc5 m, addr, rom, ram => m.r addr rom ram

def MBCType.w : MBCType → Nat → Nat → Rom → List Nat → MBCType × List Nat
  | .mbc0, _, _, _, ram => (.mbc0, ram)
  | .mbc1 m, addr, val, rom, ram =>
    let p := m.w addr val rom ram
    (.mbc1 p.1, p.2)
  | .mbc3 m, addr, val, _, ram =>
    let p := m.w addr val ram
    (.mbc3 p.1, p.2)
  | .mbc5 m, addr, val, rom, ram =>
    let p := m.w addr val rom ram
    (.mbc5 p.1, p.2)

/-- Modelled from the spec: the boot ROM images (boot_dmg.bin, boot_cgb.bin,
included as binary blobs, absent from the sources) are opaque byte blobs
mapped until 0xFF50 is written; no claim reads a boot-ROM byte, so their
contents are modelled as zeros. -/
def DMG_BOOT_ROM : Nat → Nat := fun _ => 0

/-- Modelled from the spec: see DMG_BOOT_ROM. -/
def CGB_BOOT_ROM : Nat → Nat := fun _ => 0

/-- Cartridge with its ROM, external RAM and controller (mbc.rs MBC). -/
structure MBC where
  rom : Rom
  ram : List Nat
  mbc_type : MBCType
  force_dmg : Bool
  boot_rom_unmounted : Bool

/-- MBC::r (mbc.rs lines 36-42). -/
def MBC.r (m : MBC) (addr : Nat) : Nat :=
  if addr ≤ 0x00FF ∧ m.force_dmg ∧ !m.boot_rom_unmounted then DMG_BOOT_ROM addr
  else if (addr ≤ 0x00FF ∨ (0x0200 ≤ addr ∧ addr ≤ 0x08FF)) ∧ !m.force_dmg ∧ !m.boot_rom_unmounted then
    CGB_BOOT_ROM addr
  else m.mbc_type.r addr m.rom m.ram

/-- MBC::w (mbc.rs lines 44-46). -/
def MBC.w (m : MBC) (addr val : Nat) : MBC :=
  let p := m.mbc_type.w addr val m.rom m.ram
  { m with mbc_type := p.1, ram := p.2 }

/-- MBC::save (mbc.rs lines 69-71). -/
def MBC.save (m : MBC) : List Nat := m.ram

/-- Rust slice::copy_from_slice: copies only when source and destination
lengths agree, panics otherwise (modelled as none). -/
def copy_from_slice (dst src : List Nat) : Option (List Nat) :=
  if src.length = dst.length then some src else none

/-- MBC::load (mbc.rs lines 73-76): replace the RAM with the prefix
save[..min(ram_size, save.len())] of the imported bytes. -/
def MBC.load (m : MBC) (save : List Nat) : Option MBC :=
  let ram_size := m.ram.length
  match copy_from_slice m.ram (save.take (min ram_size save.length)) with
  | some ram => some { m with ram := ram }
  | none => none

/-- Cartridge of the C7 scenario: an MBC1 cartridge, 4 bytes of external
RAM in this small instance. -/
def mbc7 : MBC := ⟨⟨0x8000, fun _ => 0⟩, [0, 0, 0, 0], .mbc1 MBC1.default, true, true⟩

/-- C6 counterexample: with a 1 MiB MBC1 ROM holding its own bank number in
every byte, after writing 0x21 to 0x2000 and 0x01 to 0x4000 the read at
0x4000 returns the byte of physical offset 0x84000 (bank 33), not the byte
at 0xA4000 (bank 41) that the claim names. -/
theorem mbc1_bank_switch_cex :
    mbc1C6.r 0x4000 rom6 [] = 0x21 ∧ rom6.data 0xA4000 = 0x29 ∧
      mbc1C6.r 0x4000 rom6 [] ≠ rom6.data 0xA4000 := by
  refine ⟨?_, by norm_num [rom6, u8], ?_⟩ <;>
    · norm_num [mbc1C6, rom6, MBC1.r, MBC1.w, MBC1.default, MBC1.high_bank, mask_bank_nr,
        bank_addr, u8, u16]
      decide

/-- C6 amended: for an MBC1 cartridge whose ROM size is a power of two of at
least 1 MiB (1 or 2 MiB, the MBC1 range), after writing 0x21 to 0x2000 and
0x01 to 0x4000, the read at 0x4000 returns the ROM byte at physical offset
(1 ||| (1 <<< 5)) <<< 14 = 0x84000. -/
theorem mbc1_bank_switch_amended (k : Nat) (data : Nat → Nat) (hk : k = 20 ∨ k = 21) :
    (((MBC1.default.w 0x2000 0x21 ⟨2 ^ k, data⟩ []).1.w 0x4000 0x01 ⟨2 ^ k, data⟩ []).1).r
        0x4000 ⟨2 ^ k, data⟩ []
      = data ((1 ||| (1 <<< 5)) <<< 14) := by
  rcases hk with h | h <;> subst h <;>
    · norm_num [MBC1.r, MBC1.w, MBC1.default, MBC1.high_bank, mask_bank_nr, bank_addr, u8, u16]
      exact congrArg data (by decide)

/-- Witness for the amended C6 theorem at ROM size 2 ^ 20 and concrete
contents. -/
theorem mbc1_bank_switch_amended_witness :
    (((MBC1.default.w 0x2000 0x21 ⟨2 ^ 20, fun i => u8 (i / 0x4000)⟩ []).1.w 0x4000 0x01
          ⟨2 ^ 20, fun i => u8 (i / 0x4000)⟩ []).1).r
        0x4000 ⟨2 ^ 20, fun i => u8 (i / 0x4000)⟩ []
      = (fun i => u8 (i / 0x4000)) ((1 ||| (1 <<< 5)) <<< 14) :=
  mbc1_bank_switch_amended 20 (fun i => u8 (i / 0x4000)) (Or.inl rfl)

/-- MBC::load panics whenever the imported save is shorter than the external
RAM: the copied slice save[..min(ram, save)] then has the length of the save,
and copy_from_slice requires it to match the RAM length. -/
theorem load_short_panics (m : MBC) (save : List Nat) (h : save.length < m.ram.length) :
    MBC.load m save = none := by
  unfold MBC.load copy_from_slice
  have hmin : min m.ram.length save.length = save.length := by omega
  simp only [hmin, List.take_length]
  rw [if_neg]
  omega

/-- C7: load_save aborts (copy_from_slice length-mismatch panic) on every
input shorter than the external RAM instead of zero-padding: an empty save
on a cartridge with RAM panics; a save longer than the RAM is truncated to
the RAM size as specified. -/
theorem load_save_short_input_panics :
    MBC.load mbc7 [] = none ∧
      (MBC.load mbc7 [1, 2, 3, 4, 5, 6]).map (fun m => m.ram) = some [1, 2, 3, 4] :=
  ⟨load_short_panics mbc7 [] (by decide), rfl⟩


/-! ### APU (apu.rs) -/

/-- apu.rs line 4. -/
def CPU_CLOCK : Nat := 4194304

/-- apu.rs line 6. -/
def NOISE_DIVISORS : List Nat := [8, 16, 32, 48, 64, 80, 96, 112]

/-- Mixer registers NR50-NR52 (apu.rs ChGlobal, lines 14-34). -/
structure ChGlobal where
  volume_left : Nat
  volume_right : Nat
  ch1_left : Bool
  ch2_left : Bool
  ch3_left : Bool
  ch4_left : Bool
  ch1_right : Bool
  ch2_right : Bool
  ch3_right : Bool
  ch4_right : Bool
  audio_on : Bool
  ch1_on : Bool
  ch2_on : Bool
  ch3_on : Bool
  ch4_on : Bool
deriving DecidableEq

def ChGlobal.new : ChGlobal :=
  ⟨0, 0, false, false, false, false, false, false, false, false, false, false, false, false, false⟩

/-- ChGlobal::r (apu.rs lines 36-52). -/
def ChGlobal.r (g : ChGlobal) (addr : Nat) : Nat :=
  if addr = 0xFF24 then (g.volume_left <<< 4) ||| g.volume_right
  else if addr = 0xFF25 then
    pack_bits [g.ch4_left, g.ch3_left, g.ch2_left, g.ch1_left,
               g.ch4_right, g.ch3_right, g.ch2_right, g.ch1_right]
  else ((b2n g.audio_on) <<< 7) ||| pack_bits [g.ch4_on, g.ch3_on, g.ch2_on, g.ch1_on]

/-- ChGlobal::w (apu.rs lines 54-75). -/
def ChGlobal.w (g : ChGlobal) (addr val : Nat) : ChGlobal :=
  if addr = 0xFF24 then
    { g with volume_left := (val &&& 0x70) >>> 4, volume_right := val &&& 0x07 }
  else if addr = 0xFF25 then
    { g with
      ch4_left := val &&& 0x80 != 0, ch3_left := val &&& 0x40 != 0,
      ch2_left := val &&& 0x20 != 0, ch1_left := val &&& 0x10 != 0,
      ch4_right := val &&& 0x08 != 0, ch3_right := val &&& 0x04 != 0,
      ch2_right := val &&& 0x02 != 0, ch1_right := val &&& 0x01 != 0 }
  else { g with audio_on := val &&& 0x80 != 0 }

/-- Pulse channel state (apu.rs ChPulse, lines 105-134). -/
structure ChPulse where
  sweep_period : Nat
  sweep_direction : Bool
  sweep_shift : Nat
  duty_wave : Nat
  length_load : Nat
  initial_volume : Nat
  envelope_direction : Bool
  envelope_period : Nat
  frequency : Nat
  trigger : Bool
  length_enabled : Bool
  enabled : Bool
  dac_enabled : Bool
  volume : Nat
  sweep_enabled : Bool
  sweep_timer : Nat
  length_timer : Nat
  envelope_timer : Nat
  frequency_timer : Nat
  frequency_shadow : Nat
  duty_wave_position : Nat
deriving DecidableEq

def ChPulse.new : ChPulse :=
  ⟨0, false, 0, 0, 0, 0, false, 0, 0, false, false, false, false, 0, false, 0, 0, 0, 0, 0, 0⟩

/-- ChPulse::r (apu.rs lines 136-145). -/
def ChPulse.r (c : ChPulse) (addr : Nat) : Nat :=
  if addr = 0xFF10 then (c.sweep_period <<< 4) ||| ((b2n c.sweep_direction) <<< 3) ||| c.sweep_shift
  else if addr = 0xFF11 then (c.duty_wave <<< 6) ||| c.length_load
  else if addr = 0xFF12 then
    (c.initial_volume <<< 4) ||| ((b2n c.envelope_direction) <<< 3) ||| c.envelope_period
  else if addr = 0xFF13 then u8 c.frequency
  else ((b2n c.trigger) <<< 7) ||| ((b2n c.length_enabled) <<< 6) ||| u8 (c.frequency >>> 8)

/-- ChPulse::compute_sweep (apu.rs lines 200-211). -/
def ChPulse.compute_sweep (c : ChPulse) : ChPulse × Nat :=
  let frequency_new := c.frequency_shadow >>> c.sweep_shift
  let frequency_new :=
    if c.sweep_direction then c.frequency_shadow - frequency_new
    else c.frequency_shadow + frequency_new
  (if frequency_new > 2047 then { c with enabled := false } else c, frequency_new)

/-- ChPulse::w (apu.rs lines 147-198). -/
def ChPulse.w (c : ChPulse) (addr val : Nat) : ChPulse :=
  if addr = 0xFF10 then
    { c with sweep_period := (val &&& 0x70) >>> 4, sweep_direction := val &&& 0x08 != 0,
             sweep_shift := val &&& 0x07 }
  else if addr = 0xFF11 then
    let c := { c with duty_wave := (val &&& 0xC0) >>> 6, length_load := val &&& 0x3F }
    { c with length_timer := 64 - c.length_load }
  else if addr = 0xFF12 then
    let c := { c with initial_volume := (val &&& 0xF0) >>> 4, envelope_direction := val &&& 0x08 != 0,
                      envelope_period := val &&& 0x07 }
    { c with dac_enabled := c.initial_volume != 0 || c.envelope_direction,
             volume := c.initial_volume, envelope_timer := c.envelope_period }
  else if addr = 0xFF13 then
    { c with frequency := (c.frequency &&& 0xFF00) ||| u8 val }
  else
    let c := { c with trigger := val &&& 0x80 != 0, length_enabled := val &&& 0x40 != 0,
                      frequency := (c.frequency &&& 0x00FF) ||| ((val &&& 0x07) <<< 8) }
    if c.trigger then
      let c := { c with enabled := true }
      let c := if c.length_timer = 0 then { c with length_timer := 64 } else c
      let c := { c with frequency_timer := u16 ((2048 - c.frequency) * 4),
                        envelope_timer := c.envelope_period, volume := c.initial_volume,
                        frequency_shadow := c.frequency, sweep_timer := c.sweep_period }
      let c := if c.sweep_timer = 0 then { c with sweep_timer := 8 } else c
      let c := { c with sweep_enabled := c.sweep_period > 0 || c.sweep_shift > 0 }
      if c.sweep_shift > 0 then (c.compute_sweep).1 else c
    else c

/-- Wave channel state (apu.rs ChWave, lines 286-305). -/
structure ChWave where
  dac_enabled : Bool
  length_load : Nat
  volume : Nat
  frequency : Nat
  trigger : Bool
  length_enabled : Bool
  enabled : Bool
  length_timer : Nat
  frequency_timer : Nat
  wave_ram : Nat → Nat
  wave_position : Nat

def ChWave.new : ChWave :=
  ⟨false, 0, 0, 0, false, false, false, 0, 0, fun _ => 0, 0⟩

/-- ChWave::r (apu.rs lines 307-317). -/
def ChWave.r (c : ChWave) (addr : Nat) : Nat :=
  if addr = 0xFF1A then (b2n c.dac_enabled) <<< 7
  else if addr = 0xFF1B then c.length_load
  else if addr = 0xFF1C then c.volume <<< 5
  else if addr = 0xFF1D then u8 c.frequency
  else if addr = 0xFF1E then
    ((b2n c.trigger) <<< 7) ||| ((b2n c.length_enabled) <<< 6) ||| u8 (c.frequency >>> 8)
  else c.wave_ram (addr - 0xFF30)

/-- ChWave::w (apu.rs lines 319-351). -/
def ChWave.w (c : ChWave) (addr val : Nat) : ChWave :=
  if addr = 0xFF1A then { c with dac_enabled := val &&& 0x80 != 0 }
  else if addr = 0xFF1B then
    let c := { c with length_load := val }
    { c with length_timer := 256 - c.length_load }
  else if addr = 0xFF1C then { c with volume := (val &&& 0x60) >>> 5 }
  else if addr = 0xFF1D then { c with frequency := (c.frequency &&& 0xFF00) ||| u8 val }
  else if addr = 0xFF1E then
    let c := { c with trigger := val &&& 0x80 != 0, length_enabled := val &&& 0x40 != 0,
                      frequency := (c.frequency &&& 0x00FF) ||| ((val &&& 0x07) <<< 8) }
    if c.trigger then
      let c := { c with enabled := true }
      let c := if c.length_timer = 0 then { c with length_timer := 256 } else c
      { c with frequency_timer := u16 ((2048 - c.frequency) * 2), wave_position := 0 }
    else c
  else { c with wave_ram := fun i => if i = addr - 0xFF30 then val else c.wave_ram i }

/-- Noise channel state (apu.rs ChNoise, lines 397-420). -/
structure ChNoise where
  length_load : Nat
  initial_volume : Nat
  envelope_direction : Bool
  envelope_period : Nat
  lfsr_shift : Nat
  lfsr_width : Bool
  lfsr_divisor_code : Nat
  trigger : Bool
  length_enabled : Bool
  enabled : Bool
  dac_enabled : Bool
  volume : Nat
  length_timer : Nat
  frequency_timer : Nat
  envelope_timer : Nat
  lfsr : Nat
deriving DecidableEq

def ChNoise.new : ChNoise :=
  ⟨0, 0, false, 0, 0, false, 0, false, false, false, false, 0, 0, 0, 0, 0⟩

/-- ChNoise::r (apu.rs lines 422-431). -/
def ChNoise.r (c : ChNoise) (addr : Nat) : Nat :=
  if addr = 0xFF1F then 0
  else if addr = 0xFF20 then c.length_load
  else if addr = 0xFF21 then
    (c.initial_volume <<< 4) ||| ((b2n c.envelope_direction) <<< 3) ||| c.envelope_period
  else if addr = 0xFF22 then
    (c.lfsr_shift <<< 4) ||| ((b2n c.lfsr_width) <<< 3) ||| c.lfsr_divisor_code
  else ((b2n c.trigger) <<< 7) ||| ((b2n c.length_enabled) <<< 6)

/-- ChNoise::w (apu.rs lines 433-471). -/
def ChNoise.w (c : ChNoise) (addr val : Nat) : ChNoise :=
  if addr = 0xFF1F then c
  else if addr = 0xFF20 then
    let c := { c with length_load := val &&& 0x3F }
    { c with length_timer := 64 - c.length_load }
  else if addr = 0xFF21 then
    let c := { c with initial_volume := (val &&& 0xF0) >>> 4, envelope_direction := val &&& 0x08 != 0,
                      envelope_period := val &&& 0x07 }
    { c with dac_enabled := c.initial_volume != 0 || c.envelope_direction,
             volume := c.initial_volume, envelope_timer := c.envelope_period }
  else if addr = 0xFF22 then
    { c with lfsr_shift := (val &&& 0xF0) >>> 4, lfsr_width := val &&& 0x08 != 0,
             lfsr_divisor_code := val &&& 0x07 }
  else
    let c := { c with trigger := val &&& 0x80 != 0, length_enabled := val &&& 0x40 != 0 }
    if c.trigger then
      let c := { c with enabled := true }
      let c := if c.length_timer = 0 then { c with length_timer := 64 } else c
      { c with frequency_timer := u16 ((NOISE_DIVISORS.getD c.lfsr_divisor_code 0) <<< c.lfsr_shift),
               envelope_timer := c.envelope_period, volume := c.initial_volume, lfsr := 0x7FFF }
    else c

/-- Length-timer clock of ChNoise::step (apu.rs lines 476-483). -/
def ChNoise.lengthTick (c : ChNoise) : ChNoise :=
  if c.length_enabled && decide (c.length_timer > 0) then
    let c := { c with length_timer := c.length_timer - 1 }
    if c.length_timer = 0 then { c with enabled := false } else c
  else c

/-- Envelope clock of ChNoise::step (apu.rs lines 486-503). -/
def ChNoise.envTick (c : ChNoise) : ChNoise :=
  if c.envelope_period > 0 then
    let c := if c.envelope_timer > 0 then { c with envelope_timer := c.envelope_timer - 1 } else c
    if c.envelope_timer = 0 then
      let c := { c with envelope_timer := c.envelope_period }
      let c := if c.envelope_timer = 0 then { c with envelope_timer := 8 } else c
      if c.envelope_direction && decide (c.volume < 15) then { c with volume := c.volume + 1 }
      else if !c.envelope_direction && decide (c.volume > 0) then { c with volume := c.volume - 1 }
      else c
    else c
  else c

/-- LFSR advance on frequency-timer expiry (apu.rs lines 509-519): reload the
timer, xor the low two bits, shift right, place the xor bit in bit 15 and,
in 7-bit width mode, also in bit 7. -/
def ChNoise.lfsrTick (c : ChNoise) : ChNoise :=
  let c := { c with
    frequency_timer := u16 ((NOISE_DIVISORS.getD c.lfsr_divisor_code 0) <<< c.lfsr_shift) }
  let xor_bit := (c.lfsr &&& 0x1) ^^^ ((c.lfsr >>> 1) &&& 0x1)
  let lfsr := c.lfsr >>> 1
  let lfsr := lfsr ||| (xor_bit <<< 15)
  if c.lfsr_width then { c with lfsr := (lfsr &&& 0xFF7F) ||| (xor_bit <<< 7) }
  else { c with lfsr := lfsr }

/-- ChNoise::step (apu.rs lines 473-530). The returned number is the sample
before normalization, volume * (1 - bit 0 of the LFSR); the final f32
normalization (sample / 7.5 - 1.0) is floating point presentation and is
omitted. -/
def ChNoise.step (c : ChNoise) (ticks : Nat) : ChNoise × Nat :=
  if c.enabled && c.dac_enabled then
    let c := if ticks % (CPU_CLOCK / 265) = 0 then c.lengthTick else c
    let c := if ticks % (CPU_CLOCK / 64) = (CPU_CLOCK / 512) * 7 then c.envTick else c
    let c := if c.frequency_timer > 0 then { c with frequency_timer := c.frequency_timer - 1 } else c
    let c := if c.frequency_timer = 0 then c.lfsrTick else c
    (c, c.volume * b2n ((c.lfsr &&& 0x1) == 0))
  else (c, 0)

/-- ChGlobal::update (apu.rs lines 77-82). -/
def ChGlobal.update (g : ChGlobal) (ch1 ch2 : ChPulse) (ch3 : ChWave) (ch4 : ChNoise) : ChGlobal :=
  { g with
    ch1_on := ch1.enabled && ch1.dac_enabled,
    ch2_on := ch2.enabled && ch2.dac_enabled,
    ch3_on := ch3.enabled && ch3.dac_enabled,
    ch4_on := ch4.enabled && ch4.dac_enabled }

/-- APU state (apu.rs lines 533-548); the floating point resampling
accumulators and the host sample buffer are presentation state never read
back through the bus and are omitted. -/
structure APU where
  ch_global : ChGlobal
  ch1 : ChPulse
  ch2 : ChPulse
  ch3 : ChWave
  ch4 : ChNoise
  ticks : Nat

/-- APU::new (apu.rs lines 551-564). -/
def APU.new : APU := ⟨ChGlobal.new, ChPulse.new, ChPulse.new, ChWave.new, ChNoise.new, 0⟩

/-- APU::r (apu.rs lines 566-577). -/
def APU.r (a : APU) (addr : Nat) : Nat :=
  if addr ≤ 0xFF14 then a.ch1.r addr
  else if addr ≤ 0xFF19 then a.ch2.r (addr - 0x0005)
  else if addr ≤ 0xFF1E then a.ch3.r addr
  else if addr ≤ 0xFF23 then a.ch4.r addr
  else if addr ≤ 0xFF26 then a.ch_global.r addr
  else if addr ≤ 0xFF2F then 0
  else a.ch3.r addr

/-- APU::w (apu.rs lines 579-591). -/
def APU.w (a : APU) (addr val : Nat) : APU :=
  let a :=
    if addr ≤ 0xFF14 then { a with ch1 := a.ch1.w addr val }
    else if addr ≤ 0xFF19 then { a with ch2 := a.ch2.w (addr - 0x0005) val }
    else if addr ≤ 0xFF1E then { a with ch3 := a.ch3.w addr val }
    else if addr ≤ 0xFF23 then { a with ch4 := a.ch4.w addr val }
    else if addr ≤ 0xFF26 then { a with ch_global := a.ch_global.w addr val }
    else if addr ≤ 0xFF2F then a
    else { a with ch3 := a.ch3.w addr val }
  { a with ch_global := a.ch_global.update a.ch1 a.ch2 a.ch3 a.ch4 }

theorem ChNoise.lengthTick_lfsr (c : ChNoise) :
    c.lengthTick.lfsr = c.lfsr ∧ c.lengthTick.lfsr_width = c.lfsr_width ∧
      c.lengthTick.frequency_timer = c.frequency_timer := by
  simp only [ChNoise.lengthTick]
  split_ifs <;> simp

theorem ChNoise.envTick_lfsr (c : ChNoise) :
    c.envTick.lfsr = c.lfsr ∧ c.envTick.lfsr_width = c.lfsr_width ∧
      c.envTick.frequency_timer = c.frequency_timer := by
  simp only [ChNoise.envTick]
  split_ifs <;> simp

/-- Noise channel of the C8 counterexample: running, LFSR holding 1,
frequency timer about to expire. -/
def ch8C : ChNoise :=
  ⟨0, 0, false, 0, 0, false, 0, false, false, true, true, 5, 10, 1, 0, 1⟩

/-- C8 counterexample: from lfsr = 1 the code shifts the xor bit into bit 15
(result 0x8000), not into bit 14 (0x4000) as the claim states. -/
theorem noise_lfsr_cex :
    (ch8C.step 1).1.lfsr = 0x8000 ∧
      (ch8C.step 1).1.lfsr ≠
        (ch8C.lfsr >>> 1) ||| (((ch8C.lfsr &&& 0x1) ^^^ ((ch8C.lfsr >>> 1) &&& 0x1)) <<< 14) := by
  decide

/-- C8 amended: on each frequency-timer expiry of the running noise channel,
with x = lfsr bit 0 XOR lfsr bit 1, the code computes
lfsr := (lfsr >> 1) | (x << 15) (a 16-bit register, not x << 14 into a
15-bit one), and in 7-bit width mode clears bit 7 (not bit 6) and sets it to
x; the output sample is volume times the complement of lfsr bit 0. -/
theorem noise_lfsr_amended (c : ChNoise) (ticks : Nat)
    (he : c.enabled = true) (hd : c.dac_enabled = true) (hf : c.frequency_timer ≤ 1) :
    ((c.step ticks).1.lfsr =
      (if c.lfsr_width
       then (((c.lfsr >>> 1) ||| (((c.lfsr &&& 0x1) ^^^ ((c.lfsr >>> 1) &&& 0x1)) <<< 15)) &&& 0xFF7F) |||
         (((c.lfsr &&& 0x1) ^^^ ((c.lfsr >>> 1) &&& 0x1)) <<< 7)
       else (c.lfsr >>> 1) ||| (((c.lfsr &&& 0x1) ^^^ ((c.lfsr >>> 1) &&& 0x1)) <<< 15))) ∧
    ((c.step ticks).2 = (c.step ticks).1.volume * b2n (((c.step ticks).1.lfsr &&& 0x1) == 0)) := by
  unfold ChNoise.step
  rw [he, hd]
  simp only [Bool.and_self, if_true]
  by_cases h1 : ticks % (CPU_CLOCK / 265) = 0 <;>
    by_cases h2 : ticks % (CPU_CLOCK / 64) = (CPU_CLOCK / 512) * 7 <;>
      simp only [h1, h2, if_true, if_false, ite_true, ite_false] <;>
  · have hl := ChNoise.lengthTick_lfsr c
    have he2 := ChNoise.envTick_lfsr c
    have he3 := ChNoise.envTick_lfsr c.lengthTick
    unfold ChNoise.lfsrTick
    constructor
    · repeat' split
      all_goals simp_all
    · trivial

/-- Witness for the amended C8 theorem at the concrete channel ch8C. -/
theorem noise_lfsr_amended_witness :
    ((ch8C.step 1).1.lfsr =
      (if ch8C.lfsr_width
       then (((ch8C.lfsr >>> 1) ||| (((ch8C.lfsr &&& 0x1) ^^^ ((ch8C.lfsr >>> 1) &&& 0x1)) <<< 15)) &&& 0xFF7F) |||
         (((ch8C.lfsr &&& 0x1) ^^^ ((ch8C.lfsr >>> 1) &&& 0x1)) <<< 7)
       else (ch8C.lfsr >>> 1) ||| (((ch8C.lfsr &&& 0x1) ^^^ ((ch8C.lfsr >>> 1) &&& 0x1)) <<< 15))) ∧
    ((ch8C.step 1).2 = (ch8C.step 1).1.volume * b2n (((ch8C.step 1).1.lfsr &&& 0x1) == 0)) :=
  noise_lfsr_amended ch8C 1 rfl rfl (by decide)


/-! ### LCD surface (lcd.rs) -/

def LCDW : Nat := 160
def LCDH : Nat := 144

/-- Frame planes (lcd.rs LCDBuffer); each plane maps a pixel index to its
32-bit color. -/
structure LCDBuffer where
  frame : Nat → Nat
  background : Nat → Nat
  foreground : Nat → Nat

def LCDBuffer.new : LCDBuffer := ⟨fun _ => 0, fun _ => 0, fun _ => 0⟩

/-- LCDBuffer::to_idx (lcd.rs lines 20-22). -/
def LCDBuffer.to_idx (x y : Nat) : Nat := x + y * LCDW

/-- LCDBuffer::w (lcd.rs lines 24-33). -/
def LCDBuffer.w (b : LCDBuffer) (x y color : Nat) (is_foreground : Bool) : LCDBuffer :=
  let idx := LCDBuffer.to_idx x y
  let b := { b with frame := fun j => if j = idx then color else b.frame j }
  if is_foreground then
    { b with foreground := fun j => if j = idx then color else b.foreground j }
  else
    { b with background := fun j => if j = idx then color else b.background j,
             foreground := fun j => if j = idx then 0 else b.foreground j }

/-- DMG palette table (lcd.rs lines 172-186), names dropped. -/
def DMG_PALETTES : List (List Nat) := [
  [0xffc5dbd4, 0xff778e98, 0xff41485d, 0xff221e31],
  [0xffdad3af, 0xffd58863, 0xffc23a73, 0xff2c1e74],
  [0xff9bbc0f, 0xff8bac0f, 0xff306230, 0xff0f380f],
  [0xfff5f29e, 0xffacb965, 0xffb87652, 0xff774346],
  [0xfffafbf6, 0xffc6b7be, 0xff565a75, 0xff0f0f1b],
  [0xffc4f0c2, 0xff5ab9a8, 0xff1e606e, 0xff2d1b00],
  [0xfff6c6a8, 0xffd17c7c, 0xff5b768d, 0xff46425e],
  [0xffffffb5, 0xff7bc67b, 0xff6b8c42, 0xff5a3921],
  [0xfff7bef7, 0xffe78686, 0xff7733e7, 0xff2c2c96],
  [0xfffbffe0, 0xff95c798, 0xff856d52, 0xff40332f],
  [0xffe2f3e4, 0xff94e344, 0xff46878f, 0xff332c50],
  [0xffa96868, 0xffedb4a1, 0xff764462, 0xff2c2137],
  [0xff8be5ff, 0xff608fcf, 0xff7550e8, 0xff622e4c]]

/-- LCD surface (lcd.rs LCD). -/
structure LCD where
  buffer : LCDBuffer
  palette_idx : Int
  mode_3d_idx : Int

def LCD.new : LCD := ⟨LCDBuffer.new, 0, 0⟩

/-- LCD::to_color_dmg (lcd.rs lines 108-117). -/
def LCD.to_color_dmg (l : LCD) (val palette : Nat) : Nat :=
  let color_idx :=
    if val = 0 then (palette &&& 0x03) >>> 0
    else if val = 1 then (palette &&& 0x0C) >>> 2
    else if val = 2 then (palette &&& 0x30) >>> 4
    else (palette &&& 0xC0) >>> 6
  (DMG_PALETTES.getD l.palette_idx.toNat []).getD color_idx 0

/-- LCD::to_color_cgb (lcd.rs lines 119-135). -/
def LCD.to_color_cgb (_ : LCD) (val : Nat) (palette : Nat → Nat) : Nat :=
  let color15 :=
    if val = 0 then palette 0 + 256 * palette 1
    else if val = 1 then palette 2 + 256 * palette 3
    else if val = 2 then palette 4 + 256 * palette 5
    else palette 6 + 256 * palette 7
  let r5 := color15 &&& 0x1F
  let g5 := (color15 >>> 5) &&& 0x1F
  let b5 := (color15 >>> 10) &&& 0x1F
  let r8 := ((r5 * 13 + g5 * 2 + b5) >>> 1) &&& 0xFF
  let g8 := ((g5 * 3 + b5) <<< 1) &&& 0xFF
  let b8 := ((r5 * 3 + g5 * 2 + b5 * 11) >>> 1) &&& 0xFF
  (0xFF <<< 24) ||| (r8 <<< 16) ||| (g8 <<< 8) ||| b8

/-- LCD::w_dmg (lcd.rs lines 137-139). -/
def LCD.w_dmg (l : LCD) (x y val palette : Nat) (is_foreground : Bool) : LCD :=
  { l with buffer := l.buffer.w x y (l.to_color_dmg val palette) is_foreground }

/-- LCD::w_cgb (lcd.rs lines 141-143). -/
def LCD.w_cgb (l : LCD) (x y val : Nat) (palette : Nat → Nat) (is_foreground : Bool) : LCD :=
  { l with buffer := l.buffer.w x y (l.to_color_cgb val palette) is_foreground }

/-! ### PPU (ppu.rs) -/

/-- LCDC register fields, bit 7 down to bit 0 (ppu.rs line 9). -/
structure LCDControl where
  lcd_enable : Bool
  window_mode : Bool
  window_enable : Bool
  tile_mode : Bool
  bg_mode : Bool
  obj_size : Bool
  obj_enable : Bool
  bg_enable : Bool
deriving DecidableEq

def LCDControl.ofByte (v : Nat) : LCDControl :=
  ⟨bitSet v 7, bitSet v 6, bitSet v 5, bitSet v 4, bitSet v 3, bitSet v 2, bitSet v 1, bitSet v 0⟩

def LCDControl.toByte (c : LCDControl) : Nat :=
  pack_bits [c.lcd_enable, c.window_mode, c.window_enable, c.tile_mode,
             c.bg_mode, c.obj_size, c.obj_enable, c.bg_enable]

/-- STAT register fields, bit 7 down to bit 0 (ppu.rs line 10). -/
structure LCDStatus where
  bit7 : Bool
  lyc_int : Bool
  mode2_int : Bool
  mode1_int : Bool
  mode0_int : Bool
  ly_eq_lyc : Bool
  ppu_mode_1 : Bool
  ppu_mode_0 : Bool
deriving DecidableEq

def LCDStatus.ofByte (v : Nat) : LCDStatus :=
  ⟨bitSet v 7, bitSet v 6, bitSet v 5, bitSet v 4, bitSet v 3, bitSet v 2, bitSet v 1, bitSet v 0⟩

def LCDStatus.toByte (s : LCDStatus) : Nat :=
  pack_bits [s.bit7, s.lyc_int, s.mode2_int, s.mode1_int,
             s.mode0_int, s.ly_eq_lyc, s.ppu_mode_1, s.ppu_mode_0]

/-- OAM attribute byte fields (ppu.rs line 12). -/
structure OBJFlags where
  bg_priority : Bool
  y_flip : Bool
  x_flip : Bool
  obp : Bool
  bank : Bool
  cgbp2 : Bool
  cgbp1 : Bool
  cgbp0 : Bool

def OBJFlags.ofByte (v : Nat) : OBJFlags :=
  ⟨bitSet v 7, bitSet v 6, bitSet v 5, bitSet v 4, bitSet v 3, bitSet v 2, bitSet v 1, bitSet v 0⟩

/-- BG attribute byte fields (ppu.rs line 13). -/
structure BGFlags where
  bg_priority : Bool
  y_flip : Bool
  x_flip : Bool
  bit4 : Bool
  bank : Bool
  cgbp2 : Bool
  cgbp1 : Bool
  cgbp0 : Bool

def BGFlags.ofByte (v : Nat) : BGFlags :=
  ⟨bitSet v 7, bitSet v 6, bitSet v 5, bitSet v 4, bitSet v 3, bitSet v 2, bitSet v 1, bitSet v 0⟩

def SCANLINE_TICKS : Nat := 456
def LY_MAX : Nat := 154

/-- PPU mode as its two STAT bits (ppu.rs PPUMode). -/
structure PPUMode where
  m1 : Bool
  m0 : Bool
deriving DecidableEq

def PPUMode.HBLANK : PPUMode := ⟨false, false⟩
def PPUMode.VBLANK : PPUMode := ⟨false, true⟩
def PPUMode.OAM : PPUMode := ⟨true, false⟩
def PPUMode.DRAW : PPUMode := ⟨true, true⟩

/-- PPU state (ppu.rs lines 33-64). -/
structure PPU where
  lcd : LCD
  vram : Nat → Nat
  oam : Nat → Nat
  lcdc : LCDControl
  lcdstat : LCDStatus
  scy : Nat
  scx : Nat
  ly : Nat
  lyc : Nat
  bgp : Nat
  obp0 : Nat
  obp1 : Nat
  wy : Nat
  wx : Nat
  wly : Nat
  cgb_mode : Bool
  vbank : Bool
  opri : Bool
  bgpi : Nat
  obpi : Nat
  bgpalette : Nat → Nat
  obpalette : Nat → Nat
  scanline_ticks : Nat
  scanline_bg_colors : Nat → Nat
  scanline_bg_pri : Nat → Bool

/-- PPU::new (ppu.rs lines 67-95). -/
def PPU.new (cgb_mode : Bool) : PPU :=
  { lcd := LCD.new, vram := fun _ => 0, oam := fun _ => 0,
    lcdc := LCDControl.ofByte 0, lcdstat := LCDStatus.ofByte 0,
    scy := 0, scx := 0, ly := 0, lyc := 0, bgp := 0, obp0 := 0, obp1 := 0,
    wy := 0, wx := 0, wly := 0, cgb_mode := cgb_mode, vbank := false, opri := true,
    bgpi := 0, obpi := 0, bgpalette := fun _ => 0xFF, obpalette := fun _ => 0xFF,
    scanline_ticks := 0, scanline_bg_colors := fun _ => 0, scanline_bg_pri := fun _ => false }

/-- PPU::vram_addr (ppu.rs lines 97-99). -/
def PPU.vram_addr (addr : Nat) (vbank : Bool) : Nat :=
  addr - 0x8000 + (b2n vbank) * 0x2000

/-- PPU::r (ppu.rs lines 101-128). -/
def PPU.r (p : PPU) (addr : Nat) : Nat :=
  if 0x8000 ≤ addr ∧ addr ≤ 0x9FFF then p.vram (PPU.vram_addr addr p.vbank)
  else if 0xFE00 ≤ addr ∧ addr ≤ 0xFE9F then p.oam (addr - 0xFE00)
  else if addr = 0xFF40 then p.lcdc.toByte
  else if addr = 0xFF41 then p.lcdstat.toByte
  else if addr = 0xFF42 then p.scy
  else if addr = 0xFF43 then p.scx
  else if addr = 0xFF44 then p.ly
  else if addr = 0xFF45 then p.lyc
  else if addr = 0xFF47 then p.bgp
  else if addr = 0xFF48 then p.obp0
  else if addr = 0xFF49 then p.obp1
  else if addr = 0xFF4A then p.wy
  else if addr = 0xFF4B then p.wx
  else if addr = 0xFF4F then (b2n p.vbank) ||| 0xFE
  else if addr = 0xFF68 then p.bgpi
  else if addr = 0xFF69 then p.bgpalette (p.bgpi &&& 0x3F)
  else if addr = 0xFF6A then p.obpi
  else if addr = 0xFF6B then p.obpalette (p.obpi &&& 0x3F)
  else if addr = 0xFF6C then b2n p.opri
  else 0xFF

/-- PPU::wpalette (ppu.rs lines 190-195): returns the updated palette RAM
and index. -/
def PPU.wpalette (palette : Nat → Nat) (index val : Nat) : (Nat → Nat) × Nat :=
  let palette := fun j => if j = (index &&& 0x3F) then val else palette j
  if index &&& 0x80 != 0 then (palette, (index &&& 0x80) ||| (u8 (index + 1) &&& 0x3F))
  else (palette, index)

/-- PPU::w (ppu.rs lines 130-157). -/
def PPU.w (p : PPU) (addr val : Nat) : PPU :=
  if 0x8000 ≤ addr ∧ addr ≤ 0x9FFF then
    { p with vram := fun j => if j = PPU.vram_addr addr p.vbank then val else p.vram j }
  else if 0xFE00 ≤ addr ∧ addr ≤ 0xFE9F then
    { p with oam := fun j => if j = addr - 0xFE00 then val else p.oam j }
  else if addr = 0xFF40 then { p with lcdc := LCDControl.ofByte val }
  else if addr = 0xFF41 then { p with lcdstat := LCDStatus.ofByte (val &&& 0xF8) }
  else if addr = 0xFF42 then { p with scy := val }
  else if addr = 0xFF43 then { p with scx := val }
  else if addr = 0xFF44 then p
  else if addr = 0xFF45 then { p with lyc := val }
  else if addr = 0xFF47 then { p with bgp := val }
  else if addr = 0xFF48 then { p with obp0 := val }
  else if addr = 0xFF49 then { p with obp1 := val }
  else if addr = 0xFF4A then { p with wy := val }
  else if addr = 0xFF4B then { p with wx := val }
  else if addr = 0xFF4F then { p with vbank := val &&& 0x01 != 0 }
  else if addr = 0xFF68 then { p with bgpi := val }
  else if addr = 0xFF69 then
    let q := PPU.wpalette p.bgpalette p.bgpi val
    { p with bgpalette := q.1, bgpi := q.2 }
  else if addr = 0xFF6A then { p with obpi := val }
  else if addr = 0xFF6B then
    let q := PPU.wpalette p.obpalette p.obpi val
    { p with obpalette := q.1, obpi := q.2 }
  else if addr = 0xFF6C then { p with opri := val &&& 0x01 != 0 }
  else p

/-- PPU::rtilemap (ppu.rs lines 159-162). -/
def PPU.rtilemap (p : PPU) (x y : Nat) (mode vbank : Bool) : Nat :=
  let addr := x + y * 32 + (if mode then 0x9C00 else 0x9800)
  p.vram (PPU.vram_addr addr vbank)

/-- PPU::rtile (ppu.rs lines 164-178). -/
def PPU.rtile (p : PPU) (tile_nr row_idx : Nat) (is_obj vbank : Bool) : Nat :=
  let tile_addr :=
    if p.lcdc.tile_mode || is_obj then 0x8000 + tile_nr * 16
    else int_as_u16 (0x9000 + sign8 tile_nr * 16)
  let row_addr := PPU.vram_addr (u16 (tile_addr + row_idx * 2)) vbank
  let row_l := p.vram row_addr
  let row_h := p.vram (row_addr + 1)
  (List.range 8).foldl
    (fun row_data i =>
      row_data ||| (((row_l >>> i) &&& 0x01) <<< (i * 2))
        ||| (((row_h >>> i) &&& 0x01) <<< (i * 2 + 1))) 0

/-- PPU::rpx (ppu.rs lines 180-183). -/
def PPU.rpx (tile index : Nat) (flip : Bool) : Nat :=
  let index := if flip then 7 - index else index
  (tile >>> ((7 - index) * 2)) &&& 0x03

/-- PPU::rpalette (ppu.rs lines 185-188): the 8-byte palette entry slice. -/
def PPU.rpalette (palette : Nat → Nat) (addr : Nat) : Nat → Nat :=
  fun k => palette (8 * addr + k)

/-- PPU::set_ly (ppu.rs lines 197-208): set LY, reset the window line on 0,
refresh the LY = LYC compare bit and return the STAT interrupt if armed. -/
def PPU.set_ly (p : PPU) (ly : Nat) : PPU × Nat :=
  let p := { p with ly := ly }
  let p := if ly = 0 then { p with wly := 0 } else p
  let p := { p with lcdstat := { p.lcdstat with ly_eq_lyc := p.ly == p.lyc } }
  (p, if p.lcdstat.lyc_int && p.lcdstat.ly_eq_lyc then INT_STAT.1 else 0)

/-- PPU::mode (ppu.rs lines 210-212). -/
def PPU.mode (p : PPU) : PPUMode := ⟨p.lcdstat.ppu_mode_1, p.lcdstat.ppu_mode_0⟩

/-- PPU::update_mode (ppu.rs lines 214-233). -/
def PPU.update_mode (p : PPU) : PPU × Nat × Option PPUMode :=
  let current_mode :=
    if p.ly ≥ LCDH then PPUMode.VBLANK
    else if p.scanline_ticks ≤ 79 then PPUMode.OAM
    else if p.scanline_ticks ≤ 253 then PPUMode.DRAW
    else PPUMode.HBLANK
  if p.mode ≠ current_mode then
    let p := { p with lcdstat := { p.lcdstat with
      ppu_mode_1 := current_mode.m1, ppu_mode_0 := current_mode.m0 } }
    let interrupts :=
      if current_mode = PPUMode.HBLANK then (if p.lcdstat.mode0_int then INT_STAT.1 else 0)
      else if current_mode = PPUMode.OAM then (if p.lcdstat.mode2_int then INT_STAT.1 else 0)
      else if current_mode = PPUMode.VBLANK then
        INT_VBLANK.1 ||| (if p.lcdstat.mode1_int then INT_STAT.1 else 0)
      else 0
    (p, interrupts, some current_mode)
  else (p, 0, none)

/-- One pixel of a background tile (ppu.rs lines 259-274). -/
def PPU.drawBGPx (p : PPU) (lx : Nat) (tile : Nat) (flags : BGFlags) (i : Nat) : PPU :=
  let x : Int := ((lx * 8 : Nat) : Int) - ((p.scx % 8 : Nat) : Int) + (i : Int)
  if x < 0 ∨ x ≥ (LCDW : Int) then p
  else
    let px := PPU.rpx tile i flags.x_flip
    let p := { p with
      scanline_bg_colors := fun j => if j = x.toNat then px else p.scanline_bg_colors j,
      scanline_bg_pri := fun j => if j = x.toNat then flags.bg_priority else p.scanline_bg_pri j }
    if p.cgb_mode then
      let cgbp := pack_bits [flags.cgbp2, flags.cgbp1, flags.cgbp0]
      { p with lcd := p.lcd.w_cgb x.toNat p.ly px (PPU.rpalette p.bgpalette cgbp) false }
    else
      { p with lcd := p.lcd.w_dmg x.toNat p.ly px p.bgp false }

/-- One background tile column (ppu.rs lines 252-275). -/
def PPU.drawBGTile (p : PPU) (lx : Nat) : PPU :=
  let tilemap_x := ((p.scx / 8) + lx) % 32
  let tilemap_y := u8 (p.scy + p.ly)
  let tile_nr := p.rtilemap tilemap_x (tilemap_y / 8) p.lcdc.bg_mode false
  let flags := BGFlags.ofByte (p.rtilemap tilemap_x (tilemap_y / 8) p.lcdc.bg_mode true)
  let tile_row := if !flags.y_flip then tilemap_y % 8 else 7 - tilemap_y % 8
  let tile := p.rtile tile_nr tile_row false flags.bank
  (List.range 8).foldl (fun p i => p.drawBGPx lx tile flags i) p

/-- Background pass of the HBLANK scanline draw (ppu.rs lines 250-276). -/
def PPU.drawBackground (p : PPU) : PPU :=
  if p.lcdc.bg_enable || p.cgb_mode then
    (List.range (LCDW / 8 + 1)).foldl PPU.drawBGTile p
  else p

/-- One pixel of a window tile (ppu.rs lines 285-300). -/
def PPU.drawWindowPx (p : PPU) (wx : Int) (lx : Nat) (tile : Nat) (flags : BGFlags) (i : Nat) : PPU :=
  let x : Int := ((lx * 8 : Nat) : Int) + wx + (i : Int)
  if x < 0 ∨ x ≥ (LCDW : Int) then p
  else
    let px := PPU.rpx tile i flags.x_flip
    let p := { p with
      scanline_bg_colors := fun j => if j = x.toNat then px else p.scanline_bg_colors j,
      scanline_bg_pri := fun j => if j = x.toNat then flags.bg_priority else p.scanline_bg_pri j }
    if p.cgb_mode then
      let cgbp := pack_bits [flags.cgbp2, flags.cgbp1, flags.cgbp0]
      { p with lcd := p.lcd.w_cgb x.toNat p.ly px (PPU.rpalette p.bgpalette cgbp) true }
    else
      { p with lcd := p.lcd.w_dmg x.toNat p.ly px p.bgp true }

/-- One window tile column (ppu.rs lines 280-301). -/
def PPU.drawWindowTile (p : PPU) (wx : Int) (lx : Nat) : PPU :=
  let tile_nr := p.rtilemap lx (p.wly / 8) p.lcdc.window_mode false
  let flags := BGFlags.ofByte (p.rtilemap lx (p.wly / 8) p.lcdc.window_mode true)
  let tile_row := if !flags.y_flip then p.wly % 8 else 7 - p.wly % 8
  let tile := p.rtile tile_nr tile_row false flags.bank
  (List.range 8).foldl (fun p i => p.drawWindowPx wx lx tile flags i) p

/-- Window pass of the HBLANK scanline draw (ppu.rs lines 278-303). -/
def PPU.drawWindow (p : PPU) : PPU :=
  let wx : Int := (p.wx : Int) - 7
  if p.lcdc.window_enable && (p.lcdc.bg_enable || p.cgb_mode) &&
      decide (p.wy ≤ p.ly) && decide (wx < (LCDH : Int)) then
    let p := (List.range (LCDW / 8 + 1)).foldl (fun p lx => p.drawWindowTile wx lx) p
    { p with wly := p.wly + 1 }
  else p

/-- Object selection (ppu.rs lines 308-318): the first up to 10 OAM entries
whose vertical span covers LY, scanned in index order. The source breaks out
of the loop once 10 are collected; the fold stops adding at 10, which
selects the same entries. -/
def PPU.selectObjs (p : PPU) (obj_h : Nat) : List (Nat × Int × Int) :=
  (List.range 40).foldl
    (fun acc i =>
      if acc.length ≥ 10 then acc
      else
        let obj_y : Int := (p.r (0xFE00 + i * 4) : Int) - 16
        if obj_y ≤ (p.ly : Int) ∧ (p.ly : Int) < obj_y + (obj_h : Int) ∧ obj_y < (LCDH : Int) then
          let obj_x : Int := (p.r (0xFE00 + i * 4 + 1) : Int) - 8
          acc ++ [(i, obj_x, obj_y)]
        else acc) []

/-- DMG object order (ppu.rs line 323): sort ascending by the reversed
comparison, i.e. larger X first, ties broken by larger OAM index first, so
that later (higher-priority) draws overwrite earlier ones. -/
def objLeDMG (a b : Nat × Int × Int) : Bool :=
  if a.2.1 = b.2.1 then b.1 ≤ a.1 else decide (b.2.1 < a.2.1)

/-- CGB object order (ppu.rs line 321): larger OAM index first. -/
def objLeCGB (a b : Nat × Int × Int) : Bool := b.1 ≤ a.1

/-- One object row (ppu.rs lines 326-362). -/
def PPU.drawObj (p : PPU) (obj_h : Nat) (obj : Nat × Int × Int) : PPU :=
  let i := obj.1
  let obj_x := obj.2.1
  let obj_y := obj.2.2
  let tile_nr := p.r (0xFE00 + i * 4 + 2) &&& (if obj_h = 16 then 0xFE else 0xFF)
  let flags := OBJFlags.ofByte (p.r (0xFE00 + i * 4 + 3))
  let tile_row : Int :=
    if !flags.y_flip then (p.ly : Int) - obj_y
    else ((obj_h : Int) - 1) - ((p.ly : Int) - obj_y)
  let tile := p.rtile tile_nr (int_as_u8 tile_row) true flags.bank
  (List.range 8).foldl
    (fun (p : PPU) (j : Nat) =>
      let x : Int := obj_x + (j : Int)
      if x < 0 ∨ x ≥ (LCDW : Int) then p
      else
        let px := PPU.rpx tile j flags.x_flip
        let bg_has_priority :=
          p.scanline_bg_colors x.toNat ≠ 0 ∧
            (if p.cgb_mode then
              p.lcdc.bg_enable = true ∧ (flags.bg_priority = true ∨ p.scanline_bg_pri x.toNat = true)
            else flags.bg_priority = true)
        if px = 0 ∨ bg_has_priority then p
        else if p.cgb_mode then
          let cgbp := pack_bits [flags.cgbp2, flags.cgbp1, flags.cgbp0]
          { p with lcd := p.lcd.w_cgb x.toNat p.ly px (PPU.rpalette p.obpalette cgbp) true }
        else
          { p with lcd := p.lcd.w_dmg x.toNat p.ly px (if flags.obp then p.obp1 else p.obp0) true })
    p

/-- Object pass of the HBLANK scanline draw (ppu.rs lines 305-363). -/
def PPU.drawObjs (p : PPU) : PPU :=
  if p.lcdc.obj_enable then
    let obj_h := if p.lcdc.obj_size then 16 else 8
    let selected := p.selectObjs obj_h
    let sorted :=
      if p.cgb_mode then selected.mergeSort objLeCGB else selected.mergeSort objLeDMG
    sorted.foldl (fun p obj => p.drawObj obj_h obj) p
  else p

/-- PPU::step (ppu.rs lines 235-379): returns the new PPU state, the finished
frame if the last scanline was reached, and the raised interrupt bits. -/
def PPU.step (p : PPU) (elapsed_ticks : Nat) : PPU × Option LCD × Nat :=
  if !p.lcdc.lcd_enable then
    let p := (p.set_ly 0).1
    let p := { p with scanline_ticks := 0, lcdstat := { p.lcdstat with
      ppu_mode_1 := PPUMode.HBLANK.m1, ppu_mode_0 := PPUMode.HBLANK.m0 } }
    (p, none, 0)
  else
    let p := { p with scanline_ticks := p.scanline_ticks + elapsed_ticks }
    let um := p.update_mode
    let p := um.1
    let interrupts := um.2.1
    let new_mode := um.2.2
    let q :=
      if new_mode = some PPUMode.HBLANK then (((p.drawBackground).drawWindow).drawObjs, interrupts)
      else if p.scanline_ticks > SCANLINE_TICKS then
        let p := { p with scanline_ticks := p.scanline_ticks % SCANLINE_TICKS }
        let r := p.set_ly (p.ly + 1)
        (r.1, interrupts ||| r.2)
      else (p, interrupts)
    let p := q.1
    let interrupts := q.2
    if p.ly ≥ LY_MAX then
      let r := p.set_ly 0
      (r.1, some r.1.lcd, interrupts ||| r.2)
    else (p, none, interrupts)

/-- C10: while LCDC bit 7 is clear, every PPU step, for any tick count,
resets LY and the scanline tick counter to 0, forces the STAT mode bits to
HBLANK, returns no frame and raises no interrupts, and leaves VRAM, OAM,
the palettes and the frame surface unchanged. -/
theorem ppu_step_lcd_disabled (p : PPU) (t : Nat) (h : p.lcdc.lcd_enable = false) :
    p.step t =
      ({ p with ly := 0, wly := 0, scanline_ticks := 0, lcdstat := { p.lcdstat with
          ly_eq_lyc := ((0 : Nat) == p.lyc), ppu_mode_1 := false, ppu_mode_0 := false } },
        none, 0) ∧
    (p.step t).1.vram = p.vram ∧ (p.step t).1.oam = p.oam ∧
    (p.step t).1.bgpalette = p.bgpalette ∧ (p.step t).1.obpalette = p.obpalette ∧
    (p.step t).1.bgp = p.bgp ∧ (p.step t).1.obp0 = p.obp0 ∧ (p.step t).1.obp1 = p.obp1 ∧
    (p.step t).1.lcd = p.lcd := by
  have h1 : p.step t =
      ({ p with ly := 0, wly := 0, scanline_ticks := 0, lcdstat := { p.lcdstat with
          ly_eq_lyc := ((0 : Nat) == p.lyc), ppu_mode_1 := false, ppu_mode_0 := false } },
        none, 0) := by
    simp [PPU.step, PPU.set_ly, h, PPUMode.HBLANK]
  rw [h1]
  exact ⟨rfl, rfl, rfl, rfl, rfl, rfl, rfl, rfl, rfl⟩


/-- Witness for the C10 theorem at the freshly constructed PPU and 456
ticks. -/
theorem ppu_step_lcd_disabled_witness :
    ((PPU.new false).step 456).1.ly = 0 ∧ ((PPU.new false).step 456).1.scanline_ticks = 0 ∧
      ((PPU.new false).step 456).2.1 = none ∧ ((PPU.new false).step 456).2.2 = 0 := by
  have h := ppu_step_lcd_disabled (PPU.new false) 456 rfl
  rw [h.1]
  exact ⟨rfl, rfl, rfl, rfl⟩


/-! ### Bus (mmu.rs) -/

/-- Bus state (mmu.rs lines 11-32). WRAM and HRAM are byte maps. -/
structure MMU where
  mbc : MBC
  wram : Nat → Nat
  hram : Nat → Nat
  ppu : PPU
  clock : Clock
  apu : APU
  IF : Nat
  IE : Nat
  joypad : Joypad
  joyp : Nat
  double_speed : Bool
  wbank : Nat
  hdma : Nat → Nat
  hdma_mode : Option Bool
  hdma_len : Nat
  hdma_last_ly : Option Nat

/-- MMU::r (mmu.rs lines 58-87); the match arms are ordered as in the
source, specific I/O addresses before the 0xFF40-0xFF6C video range. -/
def MMU.r (m : MMU) (addr : Nat) : Nat :=
  if addr ≤ 0x7FFF then m.mbc.r addr
  else if addr ≤ 0x9FFF then m.ppu.r addr
  else if addr ≤ 0xBFFF then m.mbc.r addr
  else if addr ≤ 0xCFFF then m.wram (addr - 0xC000)
  else if addr ≤ 0xDFFF then m.wram (addr - 0xD000 + m.wbank * 0x1000)
  else if addr ≤ 0xFDFF then m.wram (addr - 0xE000)
  else if addr ≤ 0xFE9F then m.ppu.r addr
  else if addr ≤ 0xFEFF then 0xFF
  else if addr = 0xFF00 then m.joypad.get m.joyp
  else if addr ≤ 0xFF02 then 0xFF
  else if addr = 0xFF03 then 0xFF
  else if addr ≤ 0xFF07 then m.clock.r addr
  else if addr ≤ 0xFF0E then 0xFF
  else if addr = 0xFF0F then m.IF
  else if addr ≤ 0xFF3F then m.apu.r addr
  else if addr = 0xFF46 then 0xFF
  else if addr = 0xFF4D then (b2n m.double_speed) <<< 7
  else if addr = 0xFF50 then b2n m.mbc.boot_rom_unmounted
  else if 0xFF51 ≤ addr ∧ addr ≤ 0xFF54 then m.hdma (addr - 0xFF51)
  else if addr = 0xFF55 then m.hdma_len ||| (if m.hdma_mode = some true then 0x00 else 0x80)
  else if addr ≤ 0xFF6C then m.ppu.r addr
  else if addr = 0xFF70 then m.wbank
  else if addr ≤ 0xFF7F then 0xFF
  else if addr ≤ 0xFFFE then m.hram (addr - 0xFF80)
  else if addr = 0xFFFF then m.IE
  else 0xFF

/-- MMU::dma (mmu.rs lines 130-135): synchronous OAM copy. The source loops
self.w(0xFE00 + i, self.r(src + i)); every destination 0xFE00..0xFE9F
dispatches to ppu.w, written directly here so the definition is not
recursive with MMU::w. -/
def MMU.dma (m : MMU) (src : Nat) : MMU :=
  let src := src <<< 8
  (List.range 0xA0).foldl
    (fun m i => { m with ppu := m.ppu.w (0xFE00 + i) (m.r (src + i)) }) m

/-- MMU::wvdma (mmu.rs lines 137-147). -/
def MMU.wvdma (m : MMU) (val : Nat) : MMU :=
  let mode := val &&& 0x80 != 0
  if m.hdma_mode = none then
    { m with hdma_mode := some mode, hdma_len := val &&& 0x7F,
             hdma_last_ly := if mode then some m.ppu.ly else none }
  else if !mode then { m with hdma_mode := none, hdma_last_ly := none }
  else m

/-- MMU::w (mmu.rs lines 89-118), arms ordered as in the source. -/
def MMU.w (m : MMU) (addr val : Nat) : MMU :=
  if addr ≤ 0x7FFF then { m with mbc := m.mbc.w addr val }
  else if addr ≤ 0x9FFF then { m with ppu := m.ppu.w addr val }
  else if addr ≤ 0xBFFF then { m with mbc := m.mbc.w addr val }
  else if addr ≤ 0xCFFF then
    { m with wram := fun j => if j = addr - 0xC000 then val else m.wram j }
  else if addr ≤ 0xDFFF then
    { m with wram := fun j => if j = addr - 0xD000 + m.wbank * 0x1000 then val else m.wram j }
  else if addr ≤ 0xFDFF then
    { m with wram := fun j => if j = addr - 0xE000 then val else m.wram j }
  else if addr ≤ 0xFE9F then { m with ppu := m.ppu.w addr val }
  else if addr ≤ 0xFEFF then m
  else if addr = 0xFF00 then { m with joyp := val }
  else if addr ≤ 0xFF02 then m
  else if addr = 0xFF03 then m
  else if addr ≤ 0xFF07 then { m with clock := m.clock.w addr val }
  else if addr ≤ 0xFF0E then m
  else if addr = 0xFF0F then { m with IF := val }
  else if addr ≤ 0xFF3F then { m with apu := m.apu.w addr val }
  else if addr = 0xFF46 then m.dma val
  else if addr = 0xFF4D then
    if val &&& 0x01 ≠ 0 then { m with double_speed := !m.double_speed } else m
  else if addr = 0xFF50 then { m with mbc := { m.mbc with boot_rom_unmounted := val ≠ 0 } }
  else if 0xFF51 ≤ addr ∧ addr ≤ 0xFF54 then
    { m with hdma := fun j => if j = addr - 0xFF51 then val else m.hdma j }
  else if addr = 0xFF55 then m.wvdma val
  else if addr ≤ 0xFF6C then { m with ppu := m.ppu.w addr val }
  else if addr = 0xFF70 then
    { m with wbank := if val &&& 0x07 = 0 then 0x01 else val &&& 0x07 }
  else if addr ≤ 0xFF7F then m
  else if addr ≤ 0xFFFE then
    { m with hram := fun j => if j = addr - 0xFF80 then val else m.hram j }
  else if addr = 0xFFFF then { m with IE := val }
  else m

/-- MMU::rw (mmu.rs lines 120-122): u16::from_le_bytes of the two bytes. -/
def MMU.rw (m : MMU) (addr : Nat) : Nat :=
  m.r addr + 256 * m.r (addr + 1)

/-- MMU::ww (mmu.rs lines 124-128): write the little-endian bytes of val. -/
def MMU.ww (m : MMU) (addr val : Nat) : MMU :=
  (m.w addr (val % 256)).w (addr + 1) ((val / 256) % 256)

/-! ### CPU registers (registers.rs) -/

inductive R8 where
  | B | C | D | E | H | L | HL | A
deriving DecidableEq

inductive R16 where
  | BC | DE | HL | AF | SP | PC
deriving DecidableEq

inductive CC where
  | NZ | Z | NC | C
deriving DecidableEq

/-- Flag register fields, bits 7 down to 4 (registers.rs lines 68-73). -/
structure FlagsRegister where
  z : Bool
  n : Bool
  h : Bool
  c : Bool
deriving DecidableEq

def FlagsRegister.ofByte (v : Nat) : FlagsRegister :=
  ⟨bitSet v 7, bitSet v 6, bitSet v 5, bitSet v 4⟩

def FlagsRegister.toByte (f : FlagsRegister) : Nat :=
  ((b2n f.z) <<< 7) ||| ((b2n f.n) <<< 6) ||| ((b2n f.h) <<< 5) ||| ((b2n f.c) <<< 4)

/-- Register file (registers.rs lines 36-48). -/
structure Registers where
  a : Nat
  b : Nat
  c : Nat
  d : Nat
  e : Nat
  f : FlagsRegister
  h : Nat
  l : Nat
  sp : Nat
  pc : Nat

/-- Registers::new (registers.rs lines 50-66): post-boot values. -/
def Registers.new : Registers :=
  ⟨0x01, 0xFF, 0x13, 0x00, 0xC1, FlagsRegister.ofByte 0, 0x84, 0x03, 0xFFFE, 0x0000⟩

/-! ### Instructions (instructions.rs Op) -/

inductive Op where
  | INVALID
  | NOP
  | LD_R16_I16 : R16 → Op
  | LD_R16_A : R16 → Op
  | LD_HLID_A : Bool → Op
  | LD_A_R16 : R16 → Op
  | LD_A_HLID : Bool → Op
  | LD_I16_SP
  | INC_R16 : R16 → Op
  | DEC_R16 : R16 → Op
  | ADD_HL_R16 : R16 → Op
  | INC_R8 : R8 → Op
  | DEC_R8 : R8 → Op
  | LD_R8_I8 : R8 → Op
  | RLCA
  | RRCA
  | RLA
  | RRA
  | DAA
  | CPL
  | SCF
  | CCF
  | JR_I8
  | JR_CC_I8 : CC → Op
  | STOP
  | LD_R8_R8 : R8 → R8 → Op
  | HALT
  | ADD_A_R8 : R8 → Op
  | ADC_A_R8 : R8 → Op
  | SUB_A_R8 : R8 → Op
  | SBC_A_R8 : R8 → Op
  | AND_A_R8 : R8 → Op
  | XOR_A_R8 : R8 → Op
  | OR_A_R8 : R8 → Op
  | CP_A_R8 : R8 → Op
  | ADD_A_I8
  | ADC_A_I8
  | SUB_A_I8
  | SBC_A_I8
  | AND_A_I8
  | XOR_A_I8
  | OR_A_I8
  | CP_A_I8
  | RET_CC : CC → Op
  | RET
  | RETI
  | JP_CC_I16 : CC → Op
  | JP_I16
  | JP_HL
  | CALL_CC_I16 : CC → Op
  | CALL_I16
  | RST : Nat → Op
  | POP_R16 : R16 → Op
  | PUSH_R16 : R16 → Op
  | CB_PREFIX
  | LDH_C_A
  | LDH_I8_A
  | LD_I16_A
  | LDH_A_C
  | LDH_A_I8
  | LD_A_I16
  | ADD_SP_I8
  | LD_HL_SPI8
  | LD_SP_HL
  | DI
  | EI
  | CB_RLC_R8 : R8 → Op
  | CB_RRC_R8 : R8 → Op
  | CB_RL_R8 : R8 → Op
  | CB_RR_R8 : R8 → Op
  | CB_SLA_R8 : R8 → Op
  | CB_SRA_R8 : R8 → Op
  | CB_SWAP_R8 : R8 → Op
  | CB_SRL_R8 : R8 → Op
  | CB_BIT_R8 : Nat → R8 → Op
  | CB_RES_R8 : Nat → R8 → Op
  | CB_SET_R8 : Nat → R8 → Op

/-- Equality test against Op::EI (cpu.rs line 176 compares prev_op with ==). -/
def Op.isEI : Op → Bool
  | .EI => true
  | _ => false

/-- Discriminator for Op::DI. -/
def Op.isDI : Op → Bool
  | .DI => true
  | _ => false

/-- Discriminator for Op::RETI. -/
def Op.isRETI : Op → Bool
  | .RETI => true
  | _ => false

/-! ### CPU (cpu.rs) -/

/-- CPU state (cpu.rs lines 17-30); the static decode tables and the debug
opcode history are omitted (operands are passed to exec directly). -/
structure CPU where
  reg : Registers
  mmu : MMU
  ime : Bool
  halt : Bool
  prev_op : Op

/-- Get of an 8-bit register slot (registers.rs lines 75-88); HL denotes the
byte at address HL. -/
def CPU.r8 (cpu : CPU) : R8 → Nat
  | .B => cpu.reg.b
  | .C => cpu.reg.c
  | .D => cpu.reg.d
  | .E => cpu.reg.e
  | .H => cpu.reg.h
  | .HL => cpu.mmu.r (cpu.reg.h * 256 + cpu.reg.l)
  | .L => cpu.reg.l
  | .A => cpu.reg.a

/-- Set of an 8-bit register slot (registers.rs lines 90-103). -/
def CPU.w8 (cpu : CPU) : R8 → Nat → CPU
  | .B, v => { cpu with reg := { cpu.reg with b := v } }
  | .C, v => { cpu with reg := { cpu.reg with c := v } }
  | .D, v => { cpu with reg := { cpu.reg with d := v } }
  | .E, v => { cpu with reg := { cpu.reg with e := v } }
  | .H, v => { cpu with reg := { cpu.reg with h := v } }
  | .HL, v => { cpu with mmu := cpu.mmu.w (cpu.reg.h * 256 + cpu.reg.l) v }
  | .L, v => { cpu with reg := { cpu.reg with l := v } }
  | .A, v => { cpu with reg := { cpu.reg with a := v } }

/-- Get of a 16-bit register pair (registers.rs lines 105-116), big-endian
halves. -/
def CPU.r16 (cpu : CPU) : R16 → Nat
  | .BC => cpu.reg.b * 256 + cpu.reg.c
  | .DE => cpu.reg.d * 256 + cpu.reg.e
  | .HL => cpu.reg.h * 256 + cpu.reg.l
  | .AF => cpu.reg.a * 256 + cpu.reg.f.toByte
  | .SP => cpu.reg.sp
  | .PC => cpu.reg.pc

/-- Set of a 16-bit register pair (registers.rs lines 118-133). -/
def CPU.w16 (cpu : CPU) : R16 → Nat → CPU
  | .BC, v => { cpu with reg := { cpu.reg with b := u8 (v >>> 8), c := u8 v } }
  | .DE, v => { cpu with reg := { cpu.reg with d := u8 (v >>> 8), e := u8 v } }
  | .HL, v => { cpu with reg := { cpu.reg with h := u8 (v >>> 8), l := u8 v } }
  | .AF, v => { cpu with reg := { cpu.reg with a := u8 (v >>> 8), f := FlagsRegister.ofByte (u8 v) } }
  | .SP, v => { cpu with reg := { cpu.reg with sp := v } }
  | .PC, v => { cpu with reg := { cpu.reg with pc := v } }

/-- Branch condition codes (registers.rs lines 135-144). -/
def CPU.rcc (cpu : CPU) : CC → Bool
  | .NZ => !cpu.reg.f.z
  | .Z => cpu.reg.f.z
  | .NC => !cpu.reg.f.c
  | .C => cpu.reg.f.c

/-- CPU::add8 (cpu.rs lines 203-212). -/
def CPU.add8 (cpu : CPU) (rid : R8) (r2 : Nat) (wc : Bool) : CPU × Nat :=
  let r1 := cpu.r8 rid
  let c := if wc && cpu.reg.f.c then 1 else 0
  let res := u8 (r1 + r2 + c)
  ({ cpu with reg := { cpu.reg with f :=
      ⟨res == 0, false, decide ((r1 &&& 0x0F) + (r2 &&& 0x0F) + c > 0x0F),
       decide (r1 + r2 + c > 0xFF)⟩ } }, res)

def CPU.add8_ (cpu : CPU) (rid : R8) (r2 : Nat) (wc : Bool) : CPU :=
  let p := cpu.add8 rid r2 wc
  p.1.w8 rid p.2

/-- CPU::add16 (cpu.rs lines 219-226); Z is preserved. -/
def CPU.add16 (cpu : CPU) (rid : R16) (r2 : Nat) : CPU × Nat :=
  let r1 := cpu.r16 rid
  let res := u16 (r1 + r2)
  ({ cpu with reg := { cpu.reg with f := { cpu.reg.f with
      h := decide ((r1 &&& 0x07FF) + (r2 &&& 0x07FF) > 0x07FF), n := false,
      c := decide (r1 > 0xFFFF - r2) } } }, res)

def CPU.add16_ (cpu : CPU) (rid : R16) (r2 : Nat) : CPU :=
  let p := cpu.add16 rid r2
  p.1.w16 rid p.2

/-- CPU::add16i8 (cpu.rs lines 233-242): the byte is sign-extended. -/
def CPU.add16i8 (cpu : CPU) (rid : R16) (r2 : Nat) : CPU × Nat :=
  let r1 := cpu.r16 rid
  let r2 := int_as_u16 (sign8 r2)
  let res := u16 (r1 + r2)
  ({ cpu with reg := { cpu.reg with f :=
      ⟨false, false, decide ((r1 &&& 0x000F) + (r2 &&& 0x000F) > 0x000F),
       decide ((r1 &&& 0x00FF) + (r2 &&& 0x00FF) > 0x00FF)⟩ } }, res)

def CPU.add16i8_ (cpu : CPU) (rid : R16) (r2 : Nat) : CPU :=
  let p := cpu.add16i8 rid r2
  p.1.w16 rid p.2

/-- CPU::sub8 (cpu.rs lines 249-258); the subtractions wrap in u8. -/
def CPU.sub8 (cpu : CPU) (rid : R8) (r2 : Nat) (wc : Bool) : CPU × Nat :=
  let r1 := cpu.r8 rid
  let c := if wc && cpu.reg.f.c then 1 else 0
  let res := (r1 + 512 - (r2 + c)) % 256
  ({ cpu with reg := { cpu.reg with f :=
      ⟨res == 0, true, decide ((r1 &&& 0x0F) < (r2 &&& 0x0F) + c),
       decide (r1 < r2 + c)⟩ } }, res)

def CPU.sub8_ (cpu : CPU) (rid : R8) (r2 : Nat) (wc : Bool) : CPU :=
  let p := cpu.sub8 rid r2 wc
  p.1.w8 rid p.2

/-- CPU::inc8_ (cpu.rs lines 265-272); C is preserved. -/
def CPU.inc8_ (cpu : CPU) (rid : R8) : CPU :=
  let r := cpu.r8 rid
  let res := u8 (r + 1)
  let cpu := { cpu with reg := { cpu.reg with f := { cpu.reg.f with
    z := res == 0, n := false, h := decide ((r &&& 0x0F) + 1 > 0x0F) } } }
  cpu.w8 rid res

/-- CPU::dec8_ (cpu.rs lines 274-281); C is preserved. -/
def CPU.dec8_ (cpu : CPU) (rid : R8) : CPU :=
  let r := cpu.r8 rid
  let res := (r + 255) % 256
  let cpu := { cpu with reg := { cpu.reg with f := { cpu.reg.f with
    z := res == 0, n := true, h := decide ((r &&& 0x0F) < 1) } } }
  cpu.w8 rid res

/-- CPU::inc16_ (cpu.rs lines 283-289), wrapping in u16. -/
def CPU.inc16_ (cpu : CPU) (rid : R16) (sign : Bool) : CPU :=
  if sign then cpu.w16 rid (u16 (cpu.r16 rid + 1))
  else cpu.w16 rid ((cpu.r16 rid + 65535) % 65536)

/-- CPU::xor8_ (cpu.rs lines 291-298). -/
def CPU.xor8_ (cpu : CPU) (rid : R8) (r2 : Nat) : CPU :=
  let res := cpu.r8 rid ^^^ r2
  let cpu := { cpu with reg := { cpu.reg with f := ⟨res == 0, false, false, false⟩ } }
  cpu.w8 rid res

/-- CPU::or8_ (cpu.rs lines 300-307). -/
def CPU.or8_ (cpu : CPU) (rid : R8) (r2 : Nat) : CPU :=
  let res := cpu.r8 rid ||| r2
  let cpu := { cpu with reg := { cpu.reg with f := ⟨res == 0, false, false, false⟩ } }
  cpu.w8 rid res

/-- CPU::and8_ (cpu.rs lines 309-316). -/
def CPU.and8_ (cpu : CPU) (rid : R8) (r2 : Nat) : CPU :=
  let res := cpu.r8 rid &&& r2
  let cpu := { cpu with reg := { cpu.reg with f := ⟨res == 0, false, true, false⟩ } }
  cpu.w8 rid res

/-- CPU::rot_ (cpu.rs lines 318-332). -/
def CPU.rot_ (cpu : CPU) (rid : R8) (left through_carry cb : Bool) : CPU :=
  let r := cpu.r8 rid
  let res :=
    if left then
      if through_carry then u8 ((r <<< 1) ||| b2n cpu.reg.f.c)
      else u8 ((r <<< 1) ||| (r >>> 7))
    else
      if through_carry then (r >>> 1) ||| (if cpu.reg.f.c then 0x80 else 0)
      else (r >>> 1) ||| u8 (r <<< 7)
  let cflag := if left then r &&& 0x80 != 0 else r &&& 0x01 != 0
  let zflag := if (rid == R8.A) && !cb then false else res == 0
  let cpu := { cpu with reg := { cpu.reg with f := ⟨zflag, false, false, cflag⟩ } }
  cpu.w8 rid res

/-- CPU::shift_ (cpu.rs lines 334-347). -/
def CPU.shift_ (cpu : CPU) (rid : R8) (left arithmetic : Bool) : CPU :=
  let r := cpu.r8 rid
  let cflag := if left then r &&& 0x80 != 0 else r &&& 0x01 != 0
  let res :=
    if left then u8 (r <<< 1)
    else if arithmetic then (r >>> 1) ||| (r &&& 0x80) else r >>> 1
  let cpu := { cpu with reg := { cpu.reg with f := ⟨res == 0, false, false, cflag⟩ } }
  cpu.w8 rid res

/-- CPU::swap_ (cpu.rs lines 349-356). -/
def CPU.swap_ (cpu : CPU) (rid : R8) : CPU :=
  let r := cpu.r8 rid
  let cpu := { cpu with reg := { cpu.reg with f := ⟨r == 0, false, false, false⟩ } }
  cpu.w8 rid ((r >>> 4) ||| u8 (r <<< 4))

/-- CPU::bit_ (cpu.rs lines 358-362); C is preserved. -/
def CPU.bit_ (cpu : CPU) (bit : Nat) (rid : R8) : CPU :=
  { cpu with reg := { cpu.reg with f := { cpu.reg.f with
    z := cpu.r8 rid &&& (1 <<< bit) == 0, n := false, h := true } } }

/-- CPU::res_ (cpu.rs lines 364-366). -/
def CPU.res_ (cpu : CPU) (bit : Nat) (rid : R8) : CPU :=
  cpu.w8 rid (cpu.r8 rid &&& (255 ^^^ (1 <<< bit)))

/-- CPU::set_ (cpu.rs lines 368-370). -/
def CPU.set_ (cpu : CPU) (bit : Nat) (rid : R8) : CPU :=
  cpu.w8 rid (cpu.r8 rid ||| (1 <<< bit))

/-- CPU::daa_ (cpu.rs lines 372-384); additions and subtractions wrap in u8. -/
def CPU.daa_ (cpu : CPU) : CPU :=
  let a := cpu.reg.a
  let f := cpu.reg.f
  let ac :=
    if f.n then
      let a := if f.c then (a + 256 - 0x60) % 256 else a
      let a := if f.h then (a + 256 - 0x06) % 256 else a
      (a, f.c)
    else
      let p := if f.c || decide (a > 0x99) then ((a + 0x60) % 256, true) else (a, f.c)
      let a := if f.h || decide (p.1 &&& 0x0F > 0x09) then (p.1 + 0x06) % 256 else p.1
      (a, p.2)
  { cpu with reg := { cpu.reg with
      a := ac.1, f := { f with z := ac.1 == 0, h := false, c := ac.2 } } }

/-- CPU::push (cpu.rs lines 386-389); the stack pointer decrement wraps in
u16. -/
def CPU.push (cpu : CPU) (val : Nat) : CPU :=
  let sp := (cpu.reg.sp + 65534) % 65536
  let cpu := { cpu with reg := { cpu.reg with sp := sp } }
  { cpu with mmu := cpu.mmu.ww sp val }

/-- CPU::pop (cpu.rs lines 391-394). -/
def CPU.pop (cpu : CPU) (rid : R16) : CPU :=
  let cpu := cpu.w16 rid (cpu.mmu.rw cpu.reg.sp)
  { cpu with reg := { cpu.reg with sp := u16 (cpu.reg.sp + 2) } }

/-- CPU::jp (cpu.rs lines 400-402). -/
def CPU.jp (cpu : CPU) (addr : Nat) : CPU :=
  { cpu with reg := { cpu.reg with pc := addr } }

/-- CPU::jr (cpu.rs lines 396-398): signed relative jump. -/
def CPU.jr (cpu : CPU) (offset : Nat) : CPU :=
  cpu.jp (int_as_u16 ((cpu.reg.pc : Int) + sign8 offset))

/-- CPU::call (cpu.rs lines 404-407). -/
def CPU.call (cpu : CPU) (addr : Nat) : CPU :=
  (cpu.push cpu.reg.pc).jp addr

/-- Instruction execution: the opcode match of CPU::step (cpu.rs lines
91-174). The immediate operand bytes xbyte and xword are passed directly
(the source fetches and unwraps them before the match). The returned number
is the conditional extra M-cycles added inside the match; INVALID and the
CB prefix panic (none). -/
def CPU.exec (cpu : CPU) (op : Op) (xbyte xword : Nat) : Option (CPU × Nat) :=
  match op with
  | .INVALID => none
  | .NOP => some (cpu, 0)
  | .LD_R16_A r => some ({ cpu with mmu := cpu.mmu.w (cpu.r16 r) cpu.reg.a }, 0)
  | .LD_I16_A => some ({ cpu with mmu := cpu.mmu.w xword cpu.reg.a }, 0)
  | .LD_HLID_A sign =>
    let cpu := { cpu with mmu := cpu.mmu.w (cpu.r16 .HL) cpu.reg.a }
    some (cpu.inc16_ .HL sign, 0)
  | .LDH_C_A => some ({ cpu with mmu := cpu.mmu.w (0xFF00 ||| cpu.reg.c) cpu.reg.a }, 0)
  | .LDH_I8_A => some ({ cpu with mmu := cpu.mmu.w (0xFF00 ||| xbyte) cpu.reg.a }, 0)
  | .LD_R16_I16 r => some (cpu.w16 r xword, 0)
  | .LD_A_R16 r => some ({ cpu with reg := { cpu.reg with a := cpu.mmu.r (cpu.r16 r) } }, 0)
  | .LD_A_I16 => some ({ cpu with reg := { cpu.reg with a := cpu.mmu.r xword } }, 0)
  | .LD_A_HLID sign =>
    let cpu := { cpu with reg := { cpu.reg with a := cpu.mmu.r (cpu.r16 .HL) } }
    some (cpu.inc16_ .HL sign, 0)
  | .LDH_A_C => some ({ cpu with reg := { cpu.reg with a := cpu.mmu.r (0xFF00 ||| cpu.reg.c) } }, 0)
  | .LDH_A_I8 => some ({ cpu with reg := { cpu.reg with a := cpu.mmu.r (0xFF00 ||| xbyte) } }, 0)
  | .LD_I16_SP => some ({ cpu with mmu := cpu.mmu.ww xword (cpu.r16 .SP) }, 0)
  | .LD_HL_SPI8 =>
    let p := cpu.add16i8 .SP xbyte
    some (p.1.w16 .HL p.2, 0)
  | .LD_SP_HL => some (cpu.w16 .SP (cpu.r16 .HL), 0)
  | .LD_R8_I8 r => some (cpu.w8 r xbyte, 0)
  | .LD_R8_R8 r1 r2 => some (cpu.w8 r1 (cpu.r8 r2), 0)
  | .INC_R8 r => some (cpu.inc8_ r, 0)
  | .DEC_R8 r => some (cpu.dec8_ r, 0)
  | .INC_R16 r => some (cpu.inc16_ r true, 0)
  | .DEC_R16 r => some (cpu.inc16_ r false, 0)
  | .ADD_HL_R16 r => some (cpu.add16_ .HL (cpu.r16 r), 0)
  | .ADD_SP_I8 => some (cpu.add16i8_ .SP xbyte, 0)
  | .ADD_A_R8 r => some (cpu.add8_ .A (cpu.r8 r) false, 0)
  | .ADD_A_I8 => some (cpu.add8_ .A xbyte false, 0)
  | .ADC_A_R8 r => some (cpu.add8_ .A (cpu.r8 r) true, 0)
  | .ADC_A_I8 => some (cpu.add8_ .A xbyte true, 0)
  | .SUB_A_R8 r => some (cpu.sub8_ .A (cpu.r8 r) false, 0)
  | .SUB_A_I8 => some (cpu.sub8_ .A xbyte false, 0)
  | .SBC_A_R8 r => some (cpu.sub8_ .A (cpu.r8 r) true, 0)
  | .SBC_A_I8 => some (cpu.sub8_ .A xbyte true, 0)
  | .AND_A_R8 r => some (cpu.and8_ .A (cpu.r8 r), 0)
  | .AND_A_I8 => some (cpu.and8_ .A xbyte, 0)
  | .XOR_A_R8 r => some (cpu.xor8_ .A (cpu.r8 r), 0)
  | .XOR_A_I8 => some (cpu.xor8_ .A xbyte, 0)
  | .OR_A_R8 r => some (cpu.or8_ .A (cpu.r8 r), 0)
  | .OR_A_I8 => some (cpu.or8_ .A xbyte, 0)
  | .CP_A_R8 r => some ((cpu.sub8 .A (cpu.r8 r) false).1, 0)
  | .CP_A_I8 => some ((cpu.sub8 .A xbyte false).1, 0)
  | .RLCA => some (cpu.rot_ .A true false false, 0)
  | .RRCA => some (cpu.rot_ .A false false false, 0)
  | .RLA => some (cpu.rot_ .A true true false, 0)
  | .RRA => some (cpu.rot_ .A false true false, 0)
  | .DAA => some (cpu.daa_, 0)
  | .CPL =>
    some ({ cpu with reg := { cpu.reg with
      a := u8 (255 ^^^ cpu.reg.a), f := { cpu.reg.f with n := true, h := true } } }, 0)
  | .SCF =>
    some ({ cpu with reg := { cpu.reg with
      f := { cpu.reg.f with n := false, h := false, c := true } } }, 0)
  | .CCF =>
    some ({ cpu with reg := { cpu.reg with
      f := { cpu.reg.f with n := false, h := false, c := !cpu.reg.f.c } } }, 0)
  | .PUSH_R16 r => some (cpu.push (cpu.r16 r), 0)
  | .POP_R16 r => some (cpu.pop r, 0)
  | .JP_I16 => some (cpu.jp xword, 0)
  | .JP_HL => some (cpu.jp (cpu.r16 .HL), 0)
  | .JR_I8 => some (cpu.jr xbyte, 0)
  | .CALL_I16 => some (cpu.call xword, 0)
  | .RST tgt => some (cpu.call (tgt <<< 3), 0)
  | .RET => some (cpu.pop .PC, 0)
  | .RETI => some (({ cpu with ime := true }).pop .PC, 0)
  | .JP_CC_I16 cc => if cpu.rcc cc then some (cpu.jp xword, 1) else some (cpu, 0)
  | .JR_CC_I8 cc => if cpu.rcc cc then some (cpu.jr xbyte, 1) else some (cpu, 0)
  | .CALL_CC_I16 cc => if cpu.rcc cc then some (cpu.call xword, 3) else some (cpu, 0)
  | .RET_CC cc => if cpu.rcc cc then some (cpu.pop .PC, 3) else some (cpu, 0)
  | .STOP => some (cpu, 0)
  | .HALT => some ({ cpu with halt := true }, 0)
  | .DI => some ({ cpu with ime := false }, 0)
  | .EI => some (cpu, 0)
  | .CB_PREFIX => none
  | .CB_RLC_R8 r => some (cpu.rot_ r true false true, 0)
  | .CB_RRC_R8 r => some (cpu.rot_ r false false true, 0)
  | .CB_RL_R8 r => some (cpu.rot_ r true true true, 0)
  | .CB_RR_R8 r => some (cpu.rot_ r false true true, 0)
  | .CB_SLA_R8 r => some (cpu.shift_ r true true, 0)
  | .CB_SRA_R8 r => some (cpu.shift_ r false true, 0)
  | .CB_SRL_R8 r => some (cpu.shift_ r false false, 0)
  | .CB_SWAP_R8 r => some (cpu.swap_ r, 0)
  | .CB_BIT_R8 bit r => some (cpu.bit_ bit r, 0)
  | .CB_RES_R8 bit r => some (cpu.res_ bit r, 0)
  | .CB_SET_R8 bit r => some (cpu.set_ bit r, 0)

/-- One executed instruction of CPU::step (cpu.rs lines 91-177): the opcode
match, then the delayed-EI commit (set IME when the previous instruction was
EI) and the prev_op update. -/
def CPU.execStep (cpu : CPU) (op : Op) (xbyte xword : Nat) : Option (CPU × Nat) :=
  match cpu.exec op xbyte xword with
  | none => none
  | some (c1, cyc) =>
    let c1 := if cpu.prev_op.isEI then { c1 with ime := true } else c1
    some ({ c1 with prev_op := op }, cyc)

/-- Body of the priority scan of CPU::handle_interrupts (cpu.rs lines
188-198) for one pending source: clear HALT; when IME is set, clear IME and
the IF bit, call the vector and cost 5 M-cycles. -/
def CPU.dispatchInterrupt (cpu : CPU) (int_flag int_addr : Nat) : CPU × Nat :=
  let cpu := { cpu with halt := false }
  if cpu.ime then
    let cpu := { cpu with
      ime := false, mmu := { cpu.mmu with IF := cpu.mmu.IF &&& (255 ^^^ int_flag) } }
    (cpu.call int_addr, 5)
  else (cpu, 0)

/-- CPU::handle_interrupts (cpu.rs lines 185-201): the loop over the five
sources in priority order, unrolled; the first source pending in both IE
and IF is dispatched and the scan stops. -/
def CPU.handle_interrupts (cpu : CPU) : CPU × Nat :=
  if cpu.mmu.IE &&& INT_VBLANK.1 ≠ 0 ∧ cpu.mmu.IF &&& INT_VBLANK.1 ≠ 0 then
    cpu.dispatchInterrupt INT_VBLANK.1 INT_VBLANK.2
  else if cpu.mmu.IE &&& INT_STAT.1 ≠ 0 ∧ cpu.mmu.IF &&& INT_STAT.1 ≠ 0 then
    cpu.dispatchInterrupt INT_STAT.1 INT_STAT.2
  else if cpu.mmu.IE &&& INT_TIMER.1 ≠ 0 ∧ cpu.mmu.IF &&& INT_TIMER.1 ≠ 0 then
    cpu.dispatchInterrupt INT_TIMER.1 INT_TIMER.2
  else if cpu.mmu.IE &&& INT_SERIAL.1 ≠ 0 ∧ cpu.mmu.IF &&& INT_SERIAL.1 ≠ 0 then
    cpu.dispatchInterrupt INT_SERIAL.1 INT_SERIAL.2
  else if cpu.mmu.IE &&& INT_JOYPAD.1 ≠ 0 ∧ cpu.mmu.IF &&& INT_JOYPAD.1 ≠ 0 then
    cpu.dispatchInterrupt INT_JOYPAD.1 INT_JOYPAD.2
  else (cpu, 0)

theorem MMU.w_wram {m : MMU} {a v : Nat} (h1 : 0xC000 ≤ a) (h2 : a ≤ 0xCFFF) :
    m.w a v = { m with wram := fun j => if j = a - 0xC000 then v else m.wram j } := by
  unfold MMU.w
  rw [if_neg (by omega), if_neg (by omega), if_neg (by omega), if_pos (by omega)]

theorem MMU.r_wram {m : MMU} {a : Nat} (h1 : 0xC000 ≤ a) (h2 : a ≤ 0xCFFF) :
    m.r a = m.wram (a - 0xC000) := by
  unfold MMU.r
  rw [if_neg (by omega), if_neg (by omega), if_neg (by omega), if_pos (by omega)]

theorem MMU.w_wram_IF {m : MMU} {a v : Nat} (h1 : 0xC000 ≤ a) (h2 : a ≤ 0xCFFF) :
    (m.w a v).IF = m.IF := by
  rw [MMU.w_wram h1 h2]

theorem MMU.w_wram_IE {m : MMU} {a v : Nat} (h1 : 0xC000 ≤ a) (h2 : a ≤ 0xCFFF) :
    (m.w a v).IE = m.IE := by
  rw [MMU.w_wram h1 h2]

theorem MMU.w_wram_wram {m : MMU} {a v : Nat} (h1 : 0xC000 ≤ a) (h2 : a ≤ 0xCFFF)
    (j : Nat) :
    (m.w a v).wram j = if j = a - 0xC000 then v else m.wram j := by
  rw [MMU.w_wram h1 h2]

/-- Interrupt bit of the i-th priority slot. -/
def intFlag : Fin 5 → Nat
  | ⟨0, _⟩ => INT_VBLANK.1
  | ⟨1, _⟩ => INT_STAT.1
  | ⟨2, _⟩ => INT_TIMER.1
  | ⟨3, _⟩ => INT_SERIAL.1
  | ⟨_ + 4, _⟩ => INT_JOYPAD.1

/-- Vector address of the i-th priority slot. -/
def intVec : Fin 5 → Nat
  | ⟨0, _⟩ => INT_VBLANK.2
  | ⟨1, _⟩ => INT_STAT.2
  | ⟨2, _⟩ => INT_TIMER.2
  | ⟨3, _⟩ => INT_SERIAL.2
  | ⟨_ + 4, _⟩ => INT_JOYPAD.2

/-- C1: CPU::handle_interrupts when the i-th priority source (VBLANK, STAT,
TIMER, SERIAL, JOYPAD in this order) is pending in both IE and IF and no
higher-priority source is: HALT is cleared unconditionally; if IME is set,
the dispatch clears exactly that bit of IF, preserves IE, clears IME, pushes
PC onto the stack (SP decreases by 2; SP is taken inside WRAM so the push is
observable through the bus), sets PC to the source's vector and consumes 5
M-cycles; if IME is clear, nothing besides the HALT flag changes and 0 extra
M-cycles are consumed. -/
theorem cpu_interrupt_dispatch (cpu : CPU) (i : Fin 5)
    (hIE : cpu.mmu.IE &&& intFlag i ≠ 0) (hIF : cpu.mmu.IF &&& intFlag i ≠ 0)
    (hprio : ∀ j : Fin 5, j < i → cpu.mmu.IE &&& intFlag j = 0 ∨ cpu.mmu.IF &&& intFlag j = 0)
    (hsp1 : 0xC002 ≤ cpu.reg.sp) (hsp2 : cpu.reg.sp ≤ 0xCFFF) (hpc : cpu.reg.pc < 0x10000) :
    (cpu.handle_interrupts).1.halt = false ∧
    (cpu.ime = true →
      (cpu.handle_interrupts).2 = 5 ∧
      (cpu.handle_interrupts).1.ime = false ∧
      (cpu.handle_interrupts).1.mmu.IF = cpu.mmu.IF &&& (255 ^^^ intFlag i) ∧
      (cpu.handle_interrupts).1.mmu.IE = cpu.mmu.IE ∧
      (cpu.handle_interrupts).1.reg.pc = intVec i ∧
      (cpu.handle_interrupts).1.reg.sp = cpu.reg.sp - 2 ∧
      (cpu.handle_interrupts).1.mmu.rw (cpu.reg.sp - 2) = cpu.reg.pc) ∧
    (cpu.ime = false → cpu.handle_interrupts = ({ cpu with halt := false }, 0)) := by
  have hd : i = 0 ∨ i = 1 ∨ i = 2 ∨ i = 3 ∨ i = 4 := by
    rcases i with ⟨iv, hlt⟩
    simp only [Fin.ext_iff]
    omega
  have hsel : cpu.handle_interrupts = cpu.dispatchInterrupt (intFlag i) (intVec i) := by
    rcases hd with h | h | h | h | h <;> subst h <;> unfold CPU.handle_interrupts
    · rw [if_pos ⟨hIE, hIF⟩]
      rfl
    · have h0 := hprio 0 (by decide)
      rw [if_neg (by rcases h0 with h | h <;> simp [intFlag] at h <;> simp [h]),
        if_pos ⟨hIE, hIF⟩]
      rfl
    · have h0 := hprio 0 (by decide)
      have h1 := hprio 1 (by decide)
      rw [if_neg (by rcases h0 with h | h <;> simp [intFlag] at h <;> simp [h]),
        if_neg (by rcases h1 with h | h <;> simp [intFlag] at h <;> simp [h]),
        if_pos ⟨hIE, hIF⟩]
      rfl
    · have h0 := hprio 0 (by decide)
      have h1 := hprio 1 (by decide)
      have h2 := hprio 2 (by decide)
      rw [if_neg (by rcases h0 with h | h <;> simp [intFlag] at h <;> simp [h]),
        if_neg (by rcases h1 with h | h <;> simp [intFlag] at h <;> simp [h]),
        if_neg (by rcases h2 with h | h <;> simp [intFlag] at h <;> simp [h]),
        if_pos ⟨hIE, hIF⟩]
      rfl
    · have h0 := hprio 0 (by decide)
      have h1 := hprio 1 (by decide)
      have h2 := hprio 2 (by decide)
      have h3 := hprio 3 (by decide)
      rw [if_neg (by rcases h0 with h | h <;> simp [intFlag] at h <;> simp [h]),
        if_neg (by rcases h1 with h | h <;> simp [intFlag] at h <;> simp [h]),
        if_neg (by rcases h2 with h | h <;> simp [intFlag] at h <;> simp [h]),
        if_neg (by rcases h3 with h | h <;> simp [intFlag] at h <;> simp [h]),
        if_pos ⟨hIE, hIF⟩]
      rfl
  rw [hsel]
  unfold CPU.dispatchInterrupt
  by_cases hime : cpu.ime
  · rw [if_pos (by simpa using hime)]
    have e2 : (cpu.reg.sp + 65534) % 65536 = cpu.reg.sp - 2 := by omega
    simp only [CPU.call, CPU.push, CPU.jp, MMU.ww]
    simp only [e2]
    refine ⟨trivial, fun _ => ⟨trivial, trivial, ?_, ?_, trivial, ?_, ?_⟩,
      fun hf => by rw [hime] at hf; exact Bool.noConfusion hf⟩
    · rw [MMU.w_wram_IF (by omega) (by omega), MMU.w_wram_IF (by omega) (by omega)]
    · rw [MMU.w_wram_IE (by omega) (by omega), MMU.w_wram_IE (by omega) (by omega)]
    · trivial
    · unfold MMU.rw
      rw [MMU.r_wram (by omega) (by omega), MMU.r_wram (by omega) (by omega)]
      rw [MMU.w_wram_wram (by omega) (by omega), MMU.w_wram_wram (by omega) (by omega),
        MMU.w_wram_wram (by omega) (by omega), MMU.w_wram_wram (by omega) (by omega)]
      rw [if_neg (by omega), if_pos (by omega), if_pos (by omega)]
      omega
  · rw [if_neg (by simpa using hime)]
    refine ⟨rfl, fun ht => absurd ht hime, fun _ => rfl⟩

/-- A concrete bus: empty cartridge, zeroed memories, no interrupt pending,
single speed, WRAM bank 1, no HDMA transfer. -/
def mmu0 : MMU :=
  { mbc := ⟨⟨0x8000, fun _ => 0⟩, [], .mbc0, true, true⟩,
    wram := fun _ => 0, hram := fun _ => 0,
    ppu := PPU.new false, clock := Clock.new, apu := APU.new,
    IF := 0, IE := 0, joypad := Joypad.new, joyp := 0,
    double_speed := false, wbank := 1, hdma := fun _ => 0,
    hdma_mode := none, hdma_len := 0, hdma_last_ly := none }

/-- CPU of the C1 witness: halted with IME set, the TIMER interrupt pending
in both IE and IF, SP inside WRAM. -/
def cpuC1 : CPU :=
  ⟨{ Registers.new with sp := 0xC100, pc := 0x1234 },
   { mmu0 with IF := 0x04, IE := 0x04 }, true, true, .NOP⟩

/-- Witness of the C1 theorem at the TIMER source. -/
theorem cpu_interrupt_dispatch_witness :
    (cpuC1.handle_interrupts).1.halt = false ∧
    (cpuC1.ime = true →
      (cpuC1.handle_interrupts).2 = 5 ∧
      (cpuC1.handle_interrupts).1.ime = false ∧
      (cpuC1.handle_interrupts).1.mmu.IF = cpuC1.mmu.IF &&& (255 ^^^ intFlag 2) ∧
      (cpuC1.handle_interrupts).1.mmu.IE = cpuC1.mmu.IE ∧
      (cpuC1.handle_interrupts).1.reg.pc = intVec 2 ∧
      (cpuC1.handle_interrupts).1.reg.sp = cpuC1.reg.sp - 2 ∧
      (cpuC1.handle_interrupts).1.mmu.rw (cpuC1.reg.sp - 2) = cpuC1.reg.pc) ∧
    (cpuC1.ime = false → cpuC1.handle_interrupts = ({ cpuC1 with halt := false }, 0)) :=
  cpu_interrupt_dispatch cpuC1 2 (by decide) (by decide) (by decide) (by decide)
    (by decide) (by decide)

/-- C3 counterexample: the write of 0x01 to 0xFF4D toggles double-speed mode
by itself, with no STOP instruction executed; nothing is armed. -/
theorem speed_switch_cex :
    mmu0.double_speed = false ∧ (mmu0.w 0xFF4D 0x01).double_speed = true := by
  exact ⟨rfl, by decide⟩

/-- C3 amended: a write to 0xFF4D toggles double-speed mode immediately when
the written value has bit 0 set and is ignored otherwise, and the STOP
instruction is a complete no-op aside from the bookkeeping every instruction
performs (the delayed-EI commit and the prev_op update). -/
theorem speed_switch_amended :
    (∀ (m : MMU) (v : Nat),
      (m.w 0xFF4D v).double_speed =
        if v &&& 0x01 ≠ 0 then !m.double_speed else m.double_speed) ∧
    (∀ (cpu : CPU) (xb xw : Nat),
      cpu.execStep .STOP xb xw =
        some ({ cpu with ime := cpu.prev_op.isEI || cpu.ime, prev_op := .STOP }, 0)) := by
  constructor
  · intro m v
    norm_num [MMU.w]
    split_ifs <;> rfl
  · intro cpu xb xw
    show (match some (cpu, 0) with
      | none => none
      | some (c1, cyc) =>
        let c1 := if cpu.prev_op.isEI then { c1 with ime := true } else c1
        some ({ c1 with prev_op := Op.STOP }, cyc)) = _
    cases h : cpu.prev_op.isEI <;> simp [h]

/-- CPU of the C4 divergence: freshly reset, IME clear, previous opcode NOP. -/
def cpuC4 : CPU := ⟨Registers.new, mmu0, false, false, .NOP⟩

/-- C4: the delayed-EI commit of CPU::step runs after the current opcode's
match arm, so IME is still clear right after EI (the one-instruction delay),
set after EI;NOP, but also set after EI;DI — the DI is overridden, where the
claim requires EI immediately followed by DI to leave IME = 0. -/
theorem ime_ei_delay_di :
    (cpuC4.execStep .EI 0 0).map (fun p => p.1.ime) = some false ∧
    ((cpuC4.execStep .EI 0 0).bind (fun p => p.1.execStep .NOP 0 0)).map
        (fun p => p.1.ime) = some true ∧
    ((cpuC4.execStep .EI 0 0).bind (fun p => p.1.execStep .DI 0 0)).map
        (fun p => p.1.ime) = some true :=
  ⟨rfl, rfl, rfl⟩

/-- CPU of the C5 scenario: A = 0x15 and B = 0x27. -/
def cpuC5 : CPU :=
  ⟨{ Registers.new with a := 0x15, b := 0x27 }, mmu0, false, false, .NOP⟩

/-- C5 counterexample: ADD A,B with A = 0x15, B = 0x27 gives A = 0x3C with
half-carry flag H = 0, not H = 1 as the claim states (0x5 + 0x7 = 0xC does
not carry out of bit 3). -/
theorem add_daa_halfcarry_cex :
    (cpuC5.execStep (.ADD_A_R8 .B) 0 0).map (fun p => (p.1.reg.a, p.1.reg.f.h))
      = some (0x3C, false) := by
  decide

/-- C5 amended: with A = 0x15 and B = 0x27, ADD A,B gives A = 0x3C with
Z = 0, N = 0, H = 0, C = 0 (no half-carry), and the subsequent DAA gives
A = 0x42 with Z = 0, N = 0, H = 0, C = 0. -/
theorem add_daa_amended (cpu : CPU) (ha : cpu.reg.a = 0x15) (hb : cpu.reg.b = 0x27) :
    (cpu.add8_ .A (cpu.r8 .B) false).reg.a = 0x3C ∧
    (cpu.add8_ .A (cpu.r8 .B) false).reg.f.z = false ∧
    (cpu.add8_ .A (cpu.r8 .B) false).reg.f.n = false ∧
    (cpu.add8_ .A (cpu.r8 .B) false).reg.f.h = false ∧
    (cpu.add8_ .A (cpu.r8 .B) false).reg.f.c = false ∧
    ((cpu.add8_ .A (cpu.r8 .B) false).daa_).reg.a = 0x42 ∧
    ((cpu.add8_ .A (cpu.r8 .B) false).daa_).reg.f.z = false ∧
    ((cpu.add8_ .A (cpu.r8 .B) false).daa_).reg.f.n = false ∧
    ((cpu.add8_ .A (cpu.r8 .B) false).daa_).reg.f.h = false ∧
    ((cpu.add8_ .A (cpu.r8 .B) false).daa_).reg.f.c = false := by
  simp [CPU.add8_, CPU.add8, CPU.r8, CPU.w8, CPU.daa_, u8, ha, hb]
  decide

/-- Witness of the amended C5 theorem. -/
theorem add_daa_amended_witness :
    (cpuC5.add8_ .A (cpuC5.r8 .B) false).reg.a = 0x3C ∧
    (cpuC5.add8_ .A (cpuC5.r8 .B) false).reg.f.z = false ∧
    (cpuC5.add8_ .A (cpuC5.r8 .B) false).reg.f.n = false ∧
    (cpuC5.add8_ .A (cpuC5.r8 .B) false).reg.f.h = false ∧
    (cpuC5.add8_ .A (cpuC5.r8 .B) false).reg.f.c = false ∧
    ((cpuC5.add8_ .A (cpuC5.r8 .B) false).daa_).reg.a = 0x42 ∧
    ((cpuC5.add8_ .A (cpuC5.r8 .B) false).daa_).reg.f.z = false ∧
    ((cpuC5.add8_ .A (cpuC5.r8 .B) false).daa_).reg.f.n = false ∧
    ((cpuC5.add8_ .A (cpuC5.r8 .B) false).daa_).reg.f.h = false ∧
    ((cpuC5.add8_ .A (cpuC5.r8 .B) false).daa_).reg.f.c = false :=
  add_daa_amended cpuC5 rfl rfl

end GBEmu
